import Mathlib

/-!
Shallow embedding of the Grospace backend derivation engine
(src/backend/main.py): field normalizers, agreement materializer,
obligation deriver, alert scheduler and payment-period generator,
together with proofs of the specified properties.

Python semantics are modelled explicitly: values raised as exceptions
become an explicit `Except PyErr` result (with `try/except (ValueError,
TypeError)` blocks catching exactly those two errors), Python floats
become `PyFloat` (a rational together with the `inf`/`-inf`/`nan`
values produced by `float(...)`), and `datetime.date` becomes `Date`
with proleptic-Gregorian day arithmetic restricted to years 1..9999
(stepping outside this range raises, as in Python).
-/

namespace Grospace

/-- Python exception kinds relevant to the embedded code.  `diverged`
marks a non-terminating loop (it is never caught by an `except`). -/
inductive PyErr where
  | valueError
  | typeError
  | overflowError
  | attributeError
  | diverged
deriving DecidableEq, Repr

instance {ε α : Type} [DecidableEq ε] [DecidableEq α] : DecidableEq (Except ε α) := fun a b =>
  match a, b with
  | .ok x, .ok y =>
    if h : x = y then .isTrue (by rw [h]) else .isFalse (by intro hc; injection hc; contradiction)
  | .error x, .error y =>
    if h : x = y then .isTrue (by rw [h]) else .isFalse (by intro hc; injection hc; contradiction)
  | .ok _, .error _ => .isFalse (by intro hc; injection hc)
  | .error _, .ok _ => .isFalse (by intro hc; injection hc)

/-- JSON-shaped values, as produced by `json.loads` on the extraction
payload.  `num` is a JSON decimal or exponent literal, which
`json.loads` yields as a Python `float`; `int` is a JSON integer
literal, which it yields as an arbitrary-precision Python `int` (so a
later `float()` conversion can overflow). -/
inductive JVal where
  | null
  | bool (b : Bool)
  | num (q : ℚ)
  | int (n : Int)
  | str (s : String)
  | arr (elems : List JVal)
  | obj (fields : List (String × JVal))

/-- `d.get(k)` on a Python dict (returns `None` when the key is absent
or the value is not a dict). -/
def jget (v : JVal) (k : String) : Option JVal :=
  match v with
  | .obj fs => fs.lookup k
  | _ => none

/-- Python truthiness of a JSON value. -/
def jTruthy : JVal → Bool
  | .null => false
  | .bool b => b
  | .num q => q != 0
  | .int n => n != 0
  | .str s => s != ""
  | .arr l => !l.isEmpty
  | .obj l => !l.isEmpty

/-- Test for the JSON null value. -/
def isNullJ : JVal → Bool
  | .null => true
  | _ => false

/-- The string sentinels of the normalizer: `"not_found"`, `"N/A"`,
`""`, `"null"`. -/
def strSentinel : JVal → Bool
  | .str s => s == "" || s == "not_found" || s == "N/A" || s == "null"
  | _ => false

/-- `get_val` (src/backend/main.py:370): unwrap a `{value, confidence}`
field and map the sentinels to `None`. -/
def get_val (field : Option JVal) : Option JVal :=
  match field with
  | none => none
  | some .null => none
  | some (.obj fs) =>
      match fs.lookup ("value") with
      | some v => if isNullJ v || strSentinel v then none else some v
      | none => some (.obj fs)
  | some f => if strSentinel f then none else some f

/-- Python float values: finite rationals plus the special values. -/
inductive PyFloat where
  | finite (q : ℚ)
  | inf
  | ninf
  | nan
deriving DecidableEq, Repr

/-- Python truthiness of a float (`0.0` is falsy, `nan` and the
infinities are truthy). -/
def PyFloat.truthy : PyFloat → Bool
  | .finite q => q != 0
  | _ => true

/-- Python float multiplication. -/
def pyMul : PyFloat → PyFloat → PyFloat
  | .nan, _ => .nan
  | _, .nan => .nan
  | .finite a, .finite b => .finite (a * b)
  | .finite a, .inf => if a = 0 then .nan else if 0 < a then .inf else .ninf
  | .finite a, .ninf => if a = 0 then .nan else if 0 < a then .ninf else .inf
  | .inf, .finite b => if b = 0 then .nan else if 0 < b then .inf else .ninf
  | .ninf, .finite b => if b = 0 then .nan else if 0 < b then .ninf else .inf
  | .inf, .inf => .inf
  | .inf, .ninf => .ninf
  | .ninf, .inf => .ninf
  | .ninf, .ninf => .inf

/-- Python float addition. -/
def pyAdd : PyFloat → PyFloat → PyFloat
  | .nan, _ => .nan
  | _, .nan => .nan
  | .finite a, .finite b => .finite (a + b)
  | .finite _, .inf => .inf
  | .inf, .finite _ => .inf
  | .finite _, .ninf => .ninf
  | .ninf, .finite _ => .ninf
  | .inf, .inf => .inf
  | .ninf, .ninf => .ninf
  | .inf, .ninf => .nan
  | .ninf, .inf => .nan

/-- Python `x > 0` on a float (`nan > 0` is false). -/
def PyFloat.gtZero : PyFloat → Bool
  | .finite q => decide (0 < q)
  | .inf => true
  | .ninf => false
  | .nan => false

/-- Truncation toward zero, the semantics of Python `int(float)`. -/
def pyTruncInt (q : ℚ) : Int :=
  if 0 ≤ q then ⌊q⌋ else ⌈q⌉

/-- Python `int(x)` on a float: truncates; raises `OverflowError` on an
infinity and `ValueError` on `nan`. -/
def PyFloat.toPyInt : PyFloat → Except PyErr Int
  | .finite q => .ok (pyTruncInt q)
  | .inf => .error .overflowError
  | .ninf => .error .overflowError
  | .nan => .error .valueError

/-- Python `a or b` where `a` is an optional float. -/
def pyOrF (a b : Option PyFloat) : Option PyFloat :=
  match a with
  | some v => if v.truthy then some v else b
  | none => b

/-- Python `a or d` where `a` is an optional float and `d` a numeric
literal. -/
def pyOrLit (a : Option PyFloat) (d : ℚ) : PyFloat :=
  match a with
  | some v => if v.truthy then v else .finite d
  | none => .finite d

def isDigitC (c : Char) : Bool := '0' ≤ c && c ≤ '9'

/-- Python `str.strip()` whitespace. -/
def isSpaceC (c : Char) : Bool :=
  c = ' ' || c = '\t' || c = '\n' || c = '\r' || c = '\x0b' || c = '\x0c'

/-- Strip leading and trailing whitespace from a character list. -/
def trimChars (cs : List Char) : List Char :=
  ((cs.dropWhile isSpaceC).reverse.dropWhile isSpaceC).reverse

/-- Lowercase a string character-wise. -/
def lowerStr (s : String) : String := String.mk (s.toList.map Char.toLower)

def natOfDigits (cs : List Char) : Nat :=
  cs.foldl (fun a c => 10 * a + (c.toNat - 48)) 0

/-- Apply an exponent suffix (after the `e`) to a mantissa. -/
def applyExp (base : ℚ) (cs : List Char) : Option ℚ :=
  let p := match cs with
    | '+' :: r => (some 1, r)
    | '-' :: r => (some (-1 : Int), r)
    | r => (some 1, r)
  match p with
  | (some sgn, ds) =>
      if ds.isEmpty || !ds.all isDigitC then none
      else some (base * (10 : ℚ) ^ (sgn * (natOfDigits ds : Int)))
  | (none, _) => none

/-- Parse an unsigned decimal literal (`123`, `1.5`, `.5`, `1.`,
optionally followed by an exponent; the input is already lowercased). -/
def parseDec (cs : List Char) : Option ℚ :=
  let ip := cs.takeWhile isDigitC
  let r1 := cs.dropWhile isDigitC
  match r1 with
  | [] => if ip.isEmpty then none else some (natOfDigits ip)
  | '.' :: r2 =>
      let fp := r2.takeWhile isDigitC
      let r3 := r2.dropWhile isDigitC
      if ip.isEmpty && fp.isEmpty then none
      else
        let base : ℚ := (natOfDigits ip : ℚ) + (natOfDigits fp : ℚ) / (10 : ℚ) ^ fp.length
        match r3 with
        | [] => some base
        | 'e' :: r4 => applyExp base r4
        | _ => none
  | 'e' :: r4 => if ip.isEmpty then none else applyExp (natOfDigits ip) r4
  | _ => none

/-- Python `float(s)` on a string: strips whitespace, accepts decimal
literals and (case-insensitively) `inf`/`infinity`/`nan` with optional
sign; raises `ValueError` otherwise. -/
def pyParseFloat (s : String) : Except PyErr PyFloat :=
  let cs := (trimChars s.toList).map Char.toLower
  let sp := match cs with
    | '+' :: r => (false, r)
    | '-' :: r => (true, r)
    | r => (false, r)
  let neg := sp.1
  let body := sp.2
  if body = ['i', 'n', 'f'] || body = ['i', 'n', 'f', 'i', 'n', 'i', 't', 'y'] then
    .ok (if neg then .ninf else .inf)
  else if body = ['n', 'a', 'n'] then .ok .nan
  else
    match parseDec body with
    | some q => .ok (.finite (if neg then -q else q))
    | none => .error .valueError

/-- The smallest magnitude at which CPython's `float(int)` overflows:
an integer whose absolute value reaches `2^1024 - 2^970` rounds
(ties-to-even) past the largest double `2^1024 - 2^971` to `2^1024`,
and `float` raises `OverflowError: int too large to convert to
float`. -/
def floatIntOverflowBound : Nat := 2 ^ 1024 - 2 ^ 970

/-- Python `float(v)` on an arbitrary value: floats and booleans
convert, an `int` converts while it fits a double and raises
`OverflowError` beyond that, strings are parsed, everything else raises
`TypeError`. -/
def pyFloatFn : JVal → Except PyErr PyFloat
  | .num q => .ok (.finite q)
  | .int n =>
      if n.natAbs < floatIntOverflowBound then .ok (.finite (n : ℚ))
      else .error .overflowError
  | .bool b => .ok (.finite (if b then 1 else 0))
  | .str s => pyParseFloat s
  | .null => .error .typeError
  | .arr _ => .error .typeError
  | .obj _ => .error .typeError

/-- `get_num` (src/backend/main.py:384) with its exception behaviour
explicit: unwrap, then `try: return float(v) except (ValueError,
TypeError): return None`.  The `except` clause catches only
`ValueError` and `TypeError`; the `OverflowError` that `float` raises
on an integer beyond double range is not caught and propagates to the
caller. -/
def get_numE (field : Option JVal) : Except PyErr (Option PyFloat) :=
  match get_val field with
  | none => .ok none
  | some v =>
      match pyFloatFn v with
      | .ok f => .ok (some f)
      | .error .valueError => .ok none
      | .error .typeError => .ok none
      | .error e => .error e

/-- The totalized view of `get_numE` used by the derivation wiring
below, collapsing the propagating `OverflowError` path to `None`.  On
every field whose value is not an integer beyond double range the two
agree (`get_num_total_agrees`); Claim C8's theorem exhibits the input
family on which they differ. -/
def get_num (field : Option JVal) : Option PyFloat :=
  match get_numE field with
  | .ok o => o
  | .error _ => none

/-! ### Dates

`datetime.date` restricted to years 1..9999, with the tuple ordering
Python uses, `timedelta(days=..)` as repeated single-day stepping
(raising `OverflowError` outside the supported range) and
`dateutil.relativedelta` month/year arithmetic (clamping the day to the
end of the month, raising `ValueError` when the year leaves 1..9999).
-/

structure Date where
  year : Nat
  month : Nat
  day : Nat
deriving DecidableEq, Repr

def isLeap (y : Nat) : Bool := y % 4 == 0 && (y % 100 != 0 || y % 400 == 0)

def daysInMonth (y m : Nat) : Nat :=
  if m = 2 then (if isLeap y then 29 else 28)
  else if m = 4 ∨ m = 6 ∨ m = 9 ∨ m = 11 then 30
  else 31

/-- The dates representable by Python `datetime.date`. -/
def Date.IsValid (d : Date) : Prop :=
  1 ≤ d.year ∧ d.year ≤ 9999 ∧ 1 ≤ d.month ∧ d.month ≤ 12 ∧
    1 ≤ d.day ∧ d.day ≤ daysInMonth d.year d.month

instance (d : Date) : Decidable d.IsValid := by
  unfold Date.IsValid; infer_instance

/-- Python date `<` (tuple comparison on (year, month, day)). -/
def Date.Lt (a b : Date) : Prop :=
  a.year < b.year ∨ (a.year = b.year ∧
    (a.month < b.month ∨ (a.month = b.month ∧ a.day < b.day)))

/-- Python date `<=`. -/
def Date.Le (a b : Date) : Prop :=
  a.year < b.year ∨ (a.year = b.year ∧
    (a.month < b.month ∨ (a.month = b.month ∧ a.day ≤ b.day)))

instance (a b : Date) : Decidable (Date.Lt a b) := by
  unfold Date.Lt; infer_instance

instance (a b : Date) : Decidable (Date.Le a b) := by
  unfold Date.Le; infer_instance

/-- The `datetime.date(y, m, d)` constructor: raises `ValueError` on
out-of-range components. -/
def mkDateE (y m : Nat) (d : Int) : Except PyErr Date :=
  if 1 ≤ y ∧ y ≤ 9999 ∧ 1 ≤ m ∧ m ≤ 12 ∧ 1 ≤ d ∧ d ≤ (daysInMonth y m : Int) then
    .ok ⟨y, m, d.toNat⟩
  else .error .valueError

/-- One day earlier; `none` below 0001-01-01. -/
def prevDay (d : Date) : Option Date :=
  if 2 ≤ d.day then some ⟨d.year, d.month, d.day - 1⟩
  else if 2 ≤ d.month then some ⟨d.year, d.month - 1, daysInMonth d.year (d.month - 1)⟩
  else if 2 ≤ d.year then some ⟨d.year - 1, 12, 31⟩
  else none

/-- One day later; `none` above 9999-12-31. -/
def nextDay (d : Date) : Option Date :=
  if d.day < daysInMonth d.year d.month then some ⟨d.year, d.month, d.day + 1⟩
  else if d.month < 12 then some ⟨d.year, d.month + 1, 1⟩
  else if d.year < 9999 then some ⟨d.year + 1, 1, 1⟩
  else none

/-- `d - timedelta(days=n)`; `none` models the `OverflowError` Python
raises when the result would fall before 0001-01-01. -/
def subDays : Date → Nat → Option Date
  | d, 0 => some d
  | d, n + 1 => (prevDay d).bind (fun e => subDays e n)

/-- `d + timedelta(days=n)`; `none` models the `OverflowError`. -/
def addDays : Date → Nat → Option Date
  | d, 0 => some d
  | d, n + 1 => (nextDay d).bind (fun e => addDays e n)

/-- `d + relativedelta(months=k)`: total-month arithmetic with the day
clamped to the target month's length; `none` models the `ValueError`
raised when the year leaves 1..9999. -/
def addMonths (d : Date) (k : Int) : Option Date :=
  let t : Int := 12 * (d.year : Int) + ((d.month : Int) - 1) + k
  let y : Int := t / 12
  let m : Nat := (t % 12).toNat + 1
  if 1 ≤ y ∧ y ≤ 9999 then
    some ⟨y.toNat, m, min d.day (daysInMonth y.toNat m)⟩
  else none

/-- `d + relativedelta(years=k)`: the year changes by `k`, the day is
clamped (Feb 29 becomes Feb 28); `none` models the `ValueError`. -/
def addYears (d : Date) (k : Int) : Option Date :=
  let y : Int := (d.year : Int) + k
  if 1 ≤ y ∧ y ≤ 9999 then
    some ⟨y.toNat, d.month, min d.day (daysInMonth y.toNat d.month)⟩
  else none

/-- Lift a partial date operation whose failure is a `ValueError`. -/
def liftVE {α : Type} : Option α → Except PyErr α
  | some a => .ok a
  | none => .error .valueError

/-- Lift a partial date operation whose failure is an `OverflowError`. -/
def liftOF {α : Type} : Option α → Except PyErr α
  | some a => .ok a
  | none => .error .overflowError

def padZ (n : Nat) (w : Nat) : String :=
  let s := toString n
  String.mk (List.replicate (w - s.length) '0') ++ s

/-- `date.isoformat()`. -/
def Date.iso (d : Date) : String :=
  padZ d.year 4 ++ "-" ++ padZ d.month 2 ++ "-" ++ padZ d.day 2

def monthNamesA : List String :=
  ["jan", "feb", "mar", "apr", "may", "jun", "jul", "aug", "sep", "oct", "nov", "dec"]

def monthNamesF : List String :=
  ["january", "february", "march", "april", "may", "june", "july", "august",
   "september", "october", "november", "december"]

def monthAbbrevCap (m : Nat) : String :=
  (["Jan", "Feb", "Mar", "Apr", "May", "Jun", "Jul", "Aug", "Sep", "Oct", "Nov", "Dec"]).getD (m - 1) ("")

/-- `date.strftime("%d %b %Y")`. -/
def Date.dmy (d : Date) : String :=
  padZ d.day 2 ++ " " ++ monthAbbrevCap d.month ++ " " ++ padZ d.year 4

/-! ### `strptime` date parsing over the six accepted formats -/

inductive FTok where
  | y4
  | mon2
  | day2
  | monAbbr
  | monFull
  | lit (c : Char)

/-- Match a 1- or 2-digit field with a value in `[1, hi]` (the shape of
the `%d`/`%m` regexes: two digits preferred, zero excluded). -/
def parse2 (cs : List Char) (hi : Nat) : Option (Nat × List Char) :=
  match cs with
  | c1 :: c2 :: rest =>
    if isDigitC c1 && isDigitC c2 then
      let v := natOfDigits [c1, c2]
      if 1 ≤ v ∧ v ≤ hi then some (v, rest)
      else
        let v1 := natOfDigits [c1]
        if 1 ≤ v1 ∧ v1 ≤ hi then some (v1, c2 :: rest) else none
    else if isDigitC c1 then
      let v := natOfDigits [c1]
      if 1 ≤ v ∧ v ≤ hi then some (v, c2 :: rest) else none
    else none
  | [c1] =>
    if isDigitC c1 then
      let v := natOfDigits [c1]
      if 1 ≤ v ∧ v ≤ hi then some (v, []) else none
    else none
  | [] => none

/-- Match exactly four digits (the `%Y` regex). -/
def parse4 (cs : List Char) : Option (Nat × List Char) :=
  match cs with
  | a :: b :: c :: d :: rest =>
    if isDigitC a && isDigitC b && isDigitC c && isDigitC d then
      some (natOfDigits [a, b, c, d], rest)
    else none
  | _ => none

/-- Match a month name case-insensitively; returns the 1-based month. -/
def matchMonth (cs : List Char) (names : List String) : Option (Nat × List Char) :=
  names.enum.findSome? (fun p =>
    let nm := p.2.toList
    if (cs.take nm.length).map Char.toLower = nm then some (p.1 + 1, cs.drop nm.length)
    else none)

structure PD where
  y : Option Nat
  m : Option Nat
  d : Option Nat

def runToks : List FTok → List Char → PD → Option PD
  | [], [], pd => some pd
  | [], _ :: _, _ => none
  | t :: ts, cs, pd =>
    match t with
    | .y4 =>
      match parse4 cs with
      | some (v, rest) => runToks ts rest { pd with y := some v }
      | none => none
    | .mon2 =>
      match parse2 cs 12 with
      | some (v, rest) => runToks ts rest { pd with m := some v }
      | none => none
    | .day2 =>
      match parse2 cs 31 with
      | some (v, rest) => runToks ts rest { pd with d := some v }
      | none => none
    | .monAbbr =>
      match matchMonth cs monthNamesA with
      | some (v, rest) => runToks ts rest { pd with m := some v }
      | none => none
    | .monFull =>
      match matchMonth cs monthNamesF with
      | some (v, rest) => runToks ts rest { pd with m := some v }
      | none => none
    | .lit c =>
      match cs with
      | c2 :: rest => if c2 = c then runToks ts rest pd else none
      | [] => none

/-- The `datetime.date` constructor as used by `strptime`: `none`
models the `ValueError` the caller catches. -/
def dateFromYMD (y m d : Nat) : Option Date :=
  if 1 ≤ y ∧ y ≤ 9999 ∧ 1 ≤ m ∧ m ≤ 12 ∧ 1 ≤ d ∧ d ≤ daysInMonth y m then
    some ⟨y, m, d⟩
  else none

def tryFmt (toks : List FTok) (cs : List Char) : Option Date :=
  match runToks toks cs ⟨none, none, none⟩ with
  | some ⟨some y, some m, some d⟩ => dateFromYMD y m d
  | _ => none

/-- The ordered format list of `get_date`: `%Y-%m-%d`, `%d-%m-%Y`,
`%d/%m/%Y`, `%Y/%m/%d`, `%d %b %Y`, `%d %B %Y`. -/
def fmtList : List (List FTok) :=
  [ [.y4, .lit '-', .mon2, .lit '-', .day2]
  , [.day2, .lit '-', .mon2, .lit '-', .y4]
  , [.day2, .lit '/', .mon2, .lit '/', .y4]
  , [.y4, .lit '/', .mon2, .lit '/', .day2]
  , [.day2, .lit ' ', .monAbbr, .lit ' ', .y4]
  , [.day2, .lit ' ', .monFull, .lit ' ', .y4] ]

/-- `get_date` (src/backend/main.py:395): unwrap, then try each date
format in order on the stripped string; non-strings give `None`.  The
Python function returns the parsed date's ISO string; the `Date` value
itself is returned here (downstream code re-parses the ISO string with
`date.fromisoformat`, which cannot fail on it). -/
def get_date (field : Option JVal) : Option Date :=
  match get_val field with
  | some (.str s) => fmtList.findSome? (fun f => tryFmt f (trimChars s.toList))
  | _ => none

/-- `get_section` (src/backend/main.py:410): a section of the
extraction, unwrapping one `{value: {...}}` level, defaulting to the
empty mapping. -/
def getSection (ex : JVal) (name : String) : List (String × JVal) :=
  match jget ex name with
  | some (.obj fs) =>
    match fs.lookup ("value") with
    | some (.obj g) => g
    | some _ => []
    | none => fs
  | _ => []

/-! ### String rendering used in the f-strings of the source -/

/-- Least power of ten divisible by `d` (for rendering terminating
decimals). -/
def pow10For (d : Nat) : Option Nat :=
  (List.range 41).find? (fun k => 10 ^ k % d = 0)

/-- Decimal rendering of a rational, in the style of Python `str` on a
float: integral values get a trailing `.0`. -/
def fmtFloatQ (q : ℚ) : String :=
  if q.den = 1 then toString q.num ++ (".0")
  else
    let sgn := if q < 0 then ("-") else ("")
    let n := q.num.natAbs
    let d := q.den
    match pow10For d with
    | some k =>
      let scaled := n * (10 ^ k / d)
      sgn ++ toString (scaled / 10 ^ k) ++ (".") ++ padZ (scaled % 10 ^ k) k
    | none => sgn ++ toString n ++ ("/") ++ toString d

def fmtFloat : PyFloat → String
  | .finite q => fmtFloatQ q
  | .inf => ("inf")
  | .ninf => ("-inf")
  | .nan => ("nan")

/-- Python `str` of a JSON value (used only for the hvac area basis in
an f-string). -/
def pyStrJ : JVal → String
  | .str s => s
  | .num q => if q.den = 1 then toString q.num else fmtFloatQ q
  | .int n => toString n
  | .bool b => if b then ("True") else ("False")
  | .null => ("None")
  | .arr _ => ("<list>")
  | .obj _ => ("<dict>")

/-- A `try: ... except (ValueError, TypeError): ...` block with a
default result; other errors propagate. -/
def pyTry {α : Type} (x : Except PyErr α) (dflt : α) : Except PyErr α :=
  match x with
  | .error .valueError => .ok dflt
  | .error .typeError => .ok dflt
  | other => other

/-! ### Derived records -/

structure Obligation where
  org_id : String
  agreement_id : String
  outlet_id : String
  type : String
  frequency : String
  amount : Option PyFloat := none
  amount_formula : Option String := none
  due_day_of_month : Option Int := none
  start_date : Option Date := none
  end_date : Option Date := none
  escalation_pct : Option PyFloat := none
  escalation_frequency_years : Option Int := none
  next_escalation_date : Option Date := none
  is_active : Bool := true
deriving DecidableEq, Repr

structure Alert where
  org_id : String
  outlet_id : String
  agreement_id : String
  type : String
  severity : String
  title : String
  message : String
  trigger_date : Date
  lead_days : Nat
  reference_date : Date
  status : String
deriving DecidableEq, Repr

/-- The agreement record built by `create_agreement_record`
(src/backend/main.py:477); `Option` fields model the `None`-stripping
before insert.  The verbatim copies of the request payload
(`extracted_data`, `risk_flags`, `extraction_confidence`) are not
repeated here. -/
structure AgreementData where
  org_id : String
  outlet_id : String
  type : String
  status : String
  document_filename : String
  extraction_status : String
  confirmed_at : String
  lessor_name : Option JVal
  lessee_name : Option JVal
  brand_name : Option JVal
  lease_commencement_date : Option Date
  rent_commencement_date : Option Date
  lease_expiry_date : Option Date
  rent_model : Option String
  monthly_rent : Option PyFloat
  rent_per_sqft : Option PyFloat
  cam_monthly : Option PyFloat
  total_monthly_outflow : Option PyFloat
  security_deposit : Option PyFloat
  late_payment_interest_pct : Option PyFloat
  lock_in_end_date : Option Date

/-! ### Rent schedule first-element lookup (src/backend/main.py:487-495
and 583-588) -/

/-- Monthly rent from the first element of the `rent_schedule` array:
`get_num(first.get("mglr_monthly")) or get_num(first.get("monthly_rent"))
or get_num(first.get("rent"))`. -/
def monthlyRentFrom (rentSec : List (String × JVal)) : Option PyFloat :=
  match get_val (rentSec.lookup ("rent_schedule")) with
  | some (.arr (first :: _)) =>
    match first with
    | .obj _ =>
      pyOrF (get_num (jget first ("mglr_monthly")))
        (pyOrF (get_num (jget first ("monthly_rent"))) (get_num (jget first ("rent"))))
    | _ => none
  | _ => none

/-- Per-square-foot rent from the first element of the `rent_schedule`
array: `get_num(first.get("mglr_per_sqft")) or
get_num(first.get("rent_per_sqft"))`. -/
def rentPerSqftFrom (rentSec : List (String × JVal)) : Option PyFloat :=
  match get_val (rentSec.lookup ("rent_schedule")) with
  | some (.arr (first :: _)) =>
    match first with
    | .obj _ =>
      pyOrF (get_num (jget first ("mglr_per_sqft"))) (get_num (jget first ("rent_per_sqft")))
    | _ => none
  | _ => none

/-- The rent-model enum validation: `if rm and rm.lower() in valid_rm`.
A truthy non-string raises `AttributeError` at `.lower()`, exactly as
in Python. -/
def rentModelOf (rent : List (String × JVal)) : Except PyErr (Option String) :=
  match get_val (rent.lookup ("rent_model")) with
  | some v =>
    if jTruthy v then
      match v with
      | .str s =>
        .ok (if lowerStr s = ("fixed") ∨ lowerStr s = ("revenue_share") ∨
               lowerStr s = ("hybrid_mglr") ∨ lowerStr s = ("percentage_only")
             then some (lowerStr s) else none)
      | _ => .error .attributeError
    else .ok none
  | none => .ok none

/-- The lock-in arithmetic inside the `try` of
src/backend/main.py:541-543: `comm_date +
relativedelta(months=int(lock_in_months))`. -/
def lockInCompute (lm : PyFloat) (comm : Date) : Except PyErr Date := do
  let k ← lm.toPyInt
  liftVE (addMonths comm k)

/-- The guarded lock-in block of src/backend/main.py:537-546: computed
only when both values normalize (and `lock_in_months` is truthy), with
`ValueError`/`TypeError` swallowed. -/
def lockEndOf (commencement : Option Date) (lock_in_months : Option PyFloat) :
    Except PyErr (Option Date) :=
  match commencement, lock_in_months with
  | some comm, some lmv =>
    if lmv.truthy then
      pyTry (do
        let e ← lockInCompute lmv comm
        pure (some e)) none
    else pure none
  | _, _ => pure none

/-- `create_agreement_record` (src/backend/main.py:477-551), returning
the record inserted into the `agreements` table. -/
def createAgreementData (ex : JVal) (docType filename orgId outletId nowIso : String) :
    Except PyErr AgreementData := do
  let parties := getSection ex ("parties")
  let lease_term := getSection ex ("lease_term")
  let rent := getSection ex ("rent")
  let charges := getSection ex ("charges")
  let deposits := getSection ex ("deposits")
  let legal := getSection ex ("legal")
  let monthly_rent := monthlyRentFrom rent
  let rent_per_sqft := rentPerSqftFrom rent
  let cam_monthly := get_num (charges.lookup ("cam_monthly"))
  let security_deposit := get_num (deposits.lookup ("security_deposit_amount"))
  let total := pyAdd (pyOrLit monthly_rent 0) (pyOrLit cam_monthly 0)
  let rm ← rentModelOf rent
  let commencement := get_date (lease_term.lookup ("lease_commencement_date"))
  let lock_in_months := get_num (lease_term.lookup ("lock_in_months"))
  let lockEnd ← lockEndOf commencement lock_in_months
  pure
    { org_id := orgId
      outlet_id := outletId
      type := docType
      status := ("active")
      document_filename := filename
      extraction_status := ("confirmed")
      confirmed_at := nowIso
      lessor_name := get_val (parties.lookup ("lessor_name"))
      lessee_name := get_val (parties.lookup ("lessee_name"))
      brand_name := get_val (parties.lookup ("brand_name"))
      lease_commencement_date := get_date (lease_term.lookup ("lease_commencement_date"))
      rent_commencement_date := get_date (lease_term.lookup ("rent_commencement_date"))
      lease_expiry_date := get_date (lease_term.lookup ("lease_expiry_date"))
      rent_model := rm
      monthly_rent := monthly_rent
      rent_per_sqft := rent_per_sqft
      cam_monthly := cam_monthly
      total_monthly_outflow := if total.gtZero then some total else none
      security_deposit := security_deposit
      late_payment_interest_pct := get_num (legal.lookup ("late_payment_interest_pct"))
      lock_in_end_date := lockEnd }

/-! ### Obligation deriver (src/backend/main.py:554-712) -/

/-- The hvac area basis label: `get_val(charges.get("hvac_area_basis"))
or "covered_area"`. -/
def areaBasisOf (charges : List (String × JVal)) : String :=
  match get_val (charges.lookup ("hvac_area_basis")) with
  | some v => if jTruthy v then pyStrJ v else ("covered_area")
  | none => ("covered_area")

/-- The rent `next_escalation_date` block of src/backend/main.py:572-578
(`try`, catching `ValueError`/`TypeError`). -/
def nextEscOf (start_date : Option Date) (esc_freq : Option PyFloat) :
    Except PyErr (Option Date) :=
  match start_date, esc_freq with
  | some sd, some f =>
    if f.truthy then
      pyTry (do
        let k ← f.toPyInt
        let e ← liftVE (addYears sd k)
        pure (some e)) none
    else pure none
  | _, _ => pure none

/-- The `int(esc_freq) if esc_freq else None` expression at
src/backend/main.py:602 (no enclosing `try`). -/
def rentEfyOf (esc_freq : Option PyFloat) : Except PyErr (Option Int) :=
  match esc_freq with
  | some f =>
    if f.truthy then
      match f.toPyInt with
      | .ok k => .ok (some k)
      | .error e => .error e
    else .ok none
  | none => .ok none

/-- The rent obligation block (src/backend/main.py:582-605). -/
def rentOblsOf (orgId agreementId outletId : String) (monthly_rent : Option PyFloat)
    (esc_freq esc_pct : Option PyFloat) (payment_day : Int)
    (start_date end_date next_esc : Option Date) : Except PyErr (List Obligation) :=
  match monthly_rent with
  | some mr =>
    if mr.truthy then
      match rentEfyOf esc_freq with
      | .error e => .error e
      | .ok efy =>
        .ok [{ org_id := orgId, agreement_id := agreementId, outlet_id := outletId,
               type := ("rent"), frequency := ("monthly"), amount := some mr,
               due_day_of_month := some payment_day, start_date := start_date,
               end_date := end_date, escalation_pct := esc_pct,
               escalation_frequency_years := efy, next_escalation_date := next_esc }]
    else .ok []
  | none => .ok []

/-- The CAM obligation block (src/backend/main.py:607-623). -/
def camOblsOf (orgId agreementId outletId : String) (cam_monthly cam_esc : Option PyFloat)
    (payment_day : Int) (start_date end_date : Option Date) : List Obligation :=
  match cam_monthly with
  | some cm =>
    if cm.truthy then
      [{ org_id := orgId, agreement_id := agreementId, outlet_id := outletId,
         type := ("cam"), frequency := ("monthly"), amount := some cm,
         due_day_of_month := some payment_day,
         start_date := start_date, end_date := end_date,
         escalation_pct := cam_esc }]
    else []
  | none => []

/-- The HVAC obligation block (src/backend/main.py:625-644): amount =
rate × area where area is `covered or super`. -/
def hvacOblsOf (orgId agreementId outletId : String) (hvac_rate area : Option PyFloat)
    (basis : String) (payment_day : Int) (start_date end_date : Option Date) :
    List Obligation :=
  match hvac_rate with
  | some hr =>
    if hr.truthy then
      match area with
      | some ar =>
        if ar.truthy then
          [{ org_id := orgId, agreement_id := agreementId, outlet_id := outletId,
             type := ("hvac"), frequency := ("monthly"),
             amount := some (pyMul hr ar),
             amount_formula := some (fmtFloat hr ++ ("/sqft x ") ++ fmtFloat ar ++
               (" sqft (") ++ basis ++ (")")),
             due_day_of_month := some payment_day,
             start_date := start_date, end_date := end_date }]
        else []
      | none => []
    else []
  | none => []

/-- The electricity obligation block (src/backend/main.py:646-661):
amount is always null with a metered formula. -/
def elecOblsOf (orgId agreementId outletId : String) (elec_load : Option PyFloat)
    (payment_day : Int) (start_date end_date : Option Date) : List Obligation :=
  match elec_load with
  | some el =>
    if el.truthy then
      [{ org_id := orgId, agreement_id := agreementId, outlet_id := outletId,
         type := ("electricity"), frequency := ("monthly"), amount := none,
         amount_formula := some (("Actual metered (") ++ fmtFloat el ++ (" KW load)")),
         due_day_of_month := some payment_day,
         start_date := start_date, end_date := end_date }]
    else []
  | none => []

/-- A one-time deposit obligation block (security and CAM deposits,
src/backend/main.py:663-689). -/
def depositOblsOf (orgId agreementId outletId typ : String) (dep : Option PyFloat)
    (start_date : Option Date) : List Obligation :=
  match dep with
  | some dv =>
    if dv.truthy then
      [{ org_id := orgId, agreement_id := agreementId, outlet_id := outletId,
         type := typ, frequency := ("one_time"), amount := some dv,
         start_date := start_date }]
    else []
  | none => []

/-- The utility-deposit obligation block (src/backend/main.py:691-704):
amount = per-KW deposit × electricity load. -/
def utilOblsOf (orgId agreementId outletId : String) (util_dep elec_load : Option PyFloat)
    (start_date : Option Date) : List Obligation :=
  match util_dep, elec_load with
  | some ud, some el =>
    if ud.truthy && el.truthy then
      [{ org_id := orgId, agreement_id := agreementId, outlet_id := outletId,
         type := ("utility_deposit"), frequency := ("one_time"),
         amount := some (pyMul ud el),
         amount_formula := some (fmtFloat ud ++ ("/KW x ") ++ fmtFloat el ++ (" KW")),
         start_date := start_date }]
    else []
  | _, _ => []

/-- The obligation blocks after rent (CAM, HVAC, electricity and the
deposits, src/backend/main.py:607-704), which involve no fallible
operation. -/
def pureOblGroups (ex : JVal) (agreementId outletId orgId : String)
    (payment_day : Int) : List Obligation :=
  let lease_term := getSection ex ("lease_term")
  let charges := getSection ex ("charges")
  let deposits := getSection ex ("deposits")
  let premises := getSection ex ("premises")
  let rent_comm := get_date (lease_term.lookup ("rent_commencement_date"))
  let lease_comm := get_date (lease_term.lookup ("lease_commencement_date"))
  let start_date := rent_comm.or lease_comm
  let end_date := get_date (lease_term.lookup ("lease_expiry_date"))
  let elec_load := get_num (charges.lookup ("electricity_load_kw"))
  camOblsOf orgId agreementId outletId (get_num (charges.lookup ("cam_monthly")))
    (get_num (charges.lookup ("cam_escalation_pct"))) payment_day
    (lease_comm.or start_date) end_date ++
  hvacOblsOf orgId agreementId outletId (get_num (charges.lookup ("hvac_rate_per_sqft")))
    (pyOrF (get_num (premises.lookup ("covered_area_sqft")))
           (get_num (premises.lookup ("super_area_sqft"))))
    (areaBasisOf charges) payment_day (lease_comm.or start_date) end_date ++
  elecOblsOf orgId agreementId outletId elec_load payment_day
    (lease_comm.or start_date) end_date ++
  depositOblsOf orgId agreementId outletId ("security_deposit")
    (get_num (deposits.lookup ("security_deposit_amount"))) (lease_comm.or start_date) ++
  depositOblsOf orgId agreementId outletId ("cam_deposit")
    (get_num (deposits.lookup ("cam_deposit_amount"))) (lease_comm.or start_date) ++
  utilOblsOf orgId agreementId outletId
    (get_num (deposits.lookup ("utility_deposit_per_kw"))) elec_load
    (lease_comm.or start_date)

/-- `generate_obligations`: derives the obligation records implied by
an extraction; errors model the exceptions the Python function can
raise. -/
def genObligations (ex : JVal) (agreementId outletId orgId : String) :
    Except PyErr (List Obligation) := do
  let lease_term := getSection ex ("lease_term")
  let rent := getSection ex ("rent")
  let rent_comm := get_date (lease_term.lookup ("rent_commencement_date"))
  let lease_comm := get_date (lease_term.lookup ("lease_commencement_date"))
  let lease_expiry := get_date (lease_term.lookup ("lease_expiry_date"))
  let start_date := rent_comm.or lease_comm
  let end_date := lease_expiry
  let esc_pct := get_num (rent.lookup ("escalation_percentage"))
  let esc_freq := get_num (rent.lookup ("escalation_frequency_years"))
  let next_esc ← nextEscOf start_date esc_freq
  let payment_day ← (pyOrLit (get_num (rent.lookup ("mglr_payment_day"))) 7).toPyInt
  let rentObls ← rentOblsOf orgId agreementId outletId (monthlyRentFrom rent)
    esc_freq esc_pct payment_day start_date end_date next_esc
  pure (rentObls ++ pureOblGroups ex agreementId outletId orgId payment_day)

/-! ### Alert scheduler (src/backend/main.py:715-830) -/

def mkLeaseExpiryAlert (orgId outletId agreementId : String) (expiry : Date)
    (lead : Nat) (trigger : Date) : Alert :=
  { org_id := orgId, outlet_id := outletId, agreement_id := agreementId,
    type := ("lease_expiry"),
    severity := if lead ≤ 30 then ("high") else ("medium"),
    title := ("Lease expiry in ") ++ toString lead ++ (" days"),
    message := ("Lease expires on ") ++ expiry.iso ++ (". ") ++ toString lead ++
      (" days remaining."),
    trigger_date := trigger, lead_days := lead, reference_date := expiry,
    status := ("pending") }

/-- The lease-expiry lead loop (no enclosing `try`: a date subtraction
that falls below year 1 raises `OverflowError` out of the whole
function). -/
def leaseExpiryGo (orgId outletId agreementId : String) (expiry today : Date) :
    List Nat → Except PyErr (List Alert)
  | [] => .ok []
  | lead :: rest => do
    let trigger ← liftOF (subDays expiry lead)
    let tail ← leaseExpiryGo orgId outletId agreementId expiry today rest
    pure ((if Date.Le today trigger then
             [mkLeaseExpiryAlert orgId outletId agreementId expiry lead trigger]
           else []) ++ tail)

def leaseExpiryAlerts (orgId outletId agreementId : String)
    (expiry : Option Date) (today : Date) : Except PyErr (List Alert) :=
  match expiry with
  | some e => leaseExpiryGo orgId outletId agreementId e today [180, 90, 30, 7]
  | none => .ok []

def mkLockInAlert (orgId outletId agreementId : String) (lockEnd : Date)
    (lead : Nat) (trigger : Date) : Alert :=
  { org_id := orgId, outlet_id := outletId, agreement_id := agreementId,
    type := ("lock_in_expiry"), severity := ("medium"),
    title := ("Lock-in expires in ") ++ toString lead ++ (" days"),
    message := ("Lock-in period ends on ") ++ lockEnd.iso ++ ("."),
    trigger_date := trigger, lead_days := lead, reference_date := lockEnd,
    status := ("pending") }

def lockInGo (orgId outletId agreementId : String) (lockEnd today : Date) :
    List Nat → Except PyErr (List Alert)
  | [] => .ok []
  | lead :: rest => do
    let trigger ← liftOF (subDays lockEnd lead)
    let tail ← lockInGo orgId outletId agreementId lockEnd today rest
    pure ((if Date.Le today trigger then
             [mkLockInAlert orgId outletId agreementId lockEnd lead trigger]
           else []) ++ tail)

/-- The lock-in category: `try` around `int(lock_in_months)` and the
month addition, catching only `ValueError`/`TypeError`. -/
def lockInAlerts (orgId outletId agreementId : String)
    (lock_in_months : Option PyFloat) (lease_comm : Option Date) (today : Date) :
    Except PyErr (List Alert) :=
  match lock_in_months, lease_comm with
  | some lm, some comm =>
    if lm.truthy then
      match lockInCompute lm comm with
      | .error .valueError => .ok []
      | .error .typeError => .ok []
      | .error e => .error e
      | .ok lockEnd => lockInGo orgId outletId agreementId lockEnd today [90, 30]
    else .ok []
  | _, _ => .ok []

/-- The `while esc_date < date.today(): esc_date +=
relativedelta(years=int(esc_freq))` loop.  The fuel bound is far above
the number of iterations any terminating run can make (the year moves
by at least one per step inside 1..9999); running out of fuel
corresponds to the genuine non-termination of the Python loop when
`int(esc_freq) == 0`. -/
def escLoop : Nat → Date → Int → Date → Except PyErr Date
  | 0, _, _, _ => .error .diverged
  | fuel + 1, today, k, e =>
    if Date.Lt e today then
      match addYears e k with
      | some e2 => escLoop fuel today k e2
      | none => .error .valueError
    else .ok e

/-- The escalation-date computation inside the `try` of
src/backend/main.py:774-779. -/
def escCompute (f : PyFloat) (base today : Date) : Except PyErr Date := do
  let k ← f.toPyInt
  let e0 ← liftVE (addYears base k)
  escLoop 30000 today k e0

def mkEscAlert (orgId outletId agreementId : String) (escD : Date) (pct : PyFloat)
    (lead : Nat) (trigger : Date) : Alert :=
  { org_id := orgId, outlet_id := outletId, agreement_id := agreementId,
    type := ("escalation"), severity := ("medium"),
    title := ("Rent escalation in ") ++ toString lead ++ (" days"),
    message := ("Rent escalation of ") ++ fmtFloat pct ++ ("% due on ") ++
      escD.iso ++ ("."),
    trigger_date := trigger, lead_days := lead, reference_date := escD,
    status := ("pending") }

def escGo (orgId outletId agreementId : String) (escD : Date) (pct : PyFloat)
    (today : Date) : List Nat → Except PyErr (List Alert)
  | [] => .ok []
  | lead :: rest => do
    let trigger ← liftOF (subDays escD lead)
    let tail ← escGo orgId outletId agreementId escD pct today rest
    pure ((if Date.Le today trigger then
             [mkEscAlert orgId outletId agreementId escD pct lead trigger]
           else []) ++ tail)

def escalationAlerts (orgId outletId agreementId : String)
    (esc_pct esc_freq : Option PyFloat) (rent_comm lease_comm : Option Date)
    (today : Date) : Except PyErr (List Alert) :=
  match esc_pct, esc_freq, rent_comm.or lease_comm with
  | some p, some f, some base =>
    if p.truthy && f.truthy then
      match escCompute f base today with
      | .error .valueError => .ok []
      | .error .typeError => .ok []
      | .error e => .error e
      | .ok escD => escGo orgId outletId agreementId escD p today [90, 30, 7]
    else .ok []
  | _, _, _ => .ok []

def mkRentDueAlert (orgId outletId agreementId : String) (due trigger : Date) : Alert :=
  { org_id := orgId, outlet_id := outletId, agreement_id := agreementId,
    type := ("rent_due"), severity := ("medium"),
    title := ("Rent due on ") ++ due.dmy,
    message := ("Monthly rent payment due on ") ++ due.iso ++ ("."),
    trigger_date := trigger, lead_days := 7, reference_date := due,
    status := ("pending") }

/-- One month's due date inside the rent-due `try`:
`date(today.year, today.month, min(payment_day, 28)) +
relativedelta(months=m)`. -/
def rentDueCompute (today : Date) (pd : Int) (m : Nat) : Except PyErr Date := do
  let base ← mkDateE today.year today.month (min pd 28)
  liftVE (addMonths base (m : Int))

/-- The rent-due loop appends into the shared alerts list inside its
`try`, so a caught error keeps the alerts accumulated so far. -/
def rentDueGo (orgId outletId agreementId : String) (today : Date) (pd : Int) :
    List Nat → List Alert → Except PyErr (List Alert)
  | [], acc => .ok acc
  | m :: rest, acc =>
    match rentDueCompute today pd m with
    | .error .valueError => .ok acc
    | .error .typeError => .ok acc
    | .error e => .error e
    | .ok due =>
      match subDays due 7 with
      | none => .error .overflowError
      | some trigger =>
        rentDueGo orgId outletId agreementId today pd rest
          (acc ++ (if Date.Le today trigger then
                     [mkRentDueAlert orgId outletId agreementId due trigger]
                   else []))

/-- The rent-due category (src/backend/main.py:799-823): six monthly
alerts with a fixed 7-day lead, only when a start date exists. -/
def rentDueAlerts (orgId outletId agreementId : String) (start : Option Date)
    (today : Date) (pd : Int) : Except PyErr (List Alert) :=
  match start with
  | some _ => rentDueGo orgId outletId agreementId today pd [0, 1, 2, 3, 4, 5] []
  | none => pure []

/-- `generate_alerts` (src/backend/main.py:715-830), with `today`
standing for `date.today()`. -/
def genAlerts (ex : JVal) (agreementId outletId orgId : String) (today : Date) :
    Except PyErr (List Alert) := do
  let lease_term := getSection ex ("lease_term")
  let rent := getSection ex ("rent")
  let lease_expiry := get_date (lease_term.lookup ("lease_expiry_date"))
  let lease_comm := get_date (lease_term.lookup ("lease_commencement_date"))
  let rent_comm := get_date (lease_term.lookup ("rent_commencement_date"))
  let lock_in_months := get_num (lease_term.lookup ("lock_in_months"))
  let esc_pct := get_num (rent.lookup ("escalation_percentage"))
  let esc_freq := get_num (rent.lookup ("escalation_frequency_years"))
  let a1 ← leaseExpiryAlerts orgId outletId agreementId lease_expiry today
  let a2 ← lockInAlerts orgId outletId agreementId lock_in_months lease_comm today
  let a3 ← escalationAlerts orgId outletId agreementId esc_pct esc_freq rent_comm lease_comm today
  let payment_day ← (pyOrLit (get_num (rent.lookup ("mglr_payment_day"))) 7).toPyInt
  let a4 ← rentDueAlerts orgId outletId agreementId (rent_comm.or lease_comm) today payment_day
  pure (a1 ++ a2 ++ a3 ++ a4)

/-! ### Payment period generator (src/backend/main.py:1619-1684) -/

/-- An obligations-table row as read back by the generator (dates are
the ISO strings stored in the database). -/
structure OblRecord where
  id : String
  org_id : String
  outlet_id : String
  frequency : String
  is_active : Bool
  amount : Option PyFloat
  due_day_of_month : Option Int
  start_date : Option String
  end_date : Option String
deriving DecidableEq, Repr

structure PayRecord where
  org_id : String
  obligation_id : String
  outlet_id : String
  period_month : Nat
  period_year : Nat
  due_date : Date
  due_amount : Option PyFloat
  status : String
deriving DecidableEq, Repr

/-- Code-point lexicographic order on character lists (Python string
`<`). -/
def charsLt : List Char → List Char → Bool
  | [], [] => false
  | [], _ :: _ => true
  | _ :: _, [] => false
  | a :: xs, b :: ys => if a < b then true else if b < a then false else charsLt xs ys

def pyStrLt (a b : String) : Bool := charsLt a.toList b.toList

/-- `s[:7]`. -/
def strTake (s : String) (n : Nat) : String := String.mk (s.toList.take n)

/-- The f-string `f"{period_year}-{period_month:02d}"`. -/
def ymKey (y m : Nat) : String := toString y ++ ("-") ++ padZ m 2

/-- Python `x or 1` on the optional integer `due_day_of_month`. -/
def pyOrInt (a : Option Int) (d : Int) : Int :=
  match a with
  | some v => if v ≠ 0 then v else d
  | none => d

/-- The validity-window skip of src/backend/main.py:1645-1650. -/
def windowSkip (o : OblRecord) (y m : Nat) : Bool :=
  (match o.start_date with
   | some s => s != ("") && pyStrLt (ymKey y m) (strTake s 7)
   | none => false) ||
  (match o.end_date with
   | some s => s != ("") && pyStrLt (strTake s 7) (ymKey y m)
   | none => false)

/-- The existence check against the `payment_records` table. -/
def existsRec (ps : List PayRecord) (oid : String) (y m : Nat) : Bool :=
  ps.any (fun p => p.obligation_id == oid && p.period_year == y && p.period_month == m)

/-- The status classification of src/backend/main.py:1663-1668, where
`t7` is `today + timedelta(days=7)`. -/
def payStatusOf (due today t7 : Date) : String :=
  if Date.Lt due today then ("overdue")
  else if Date.Le due t7 then ("due")
  else ("upcoming")

/-- The row inserted into `payment_records` (src/backend/main.py:1670-1679),
with `due_amount` copied from the obligation. -/
def payRecOf (o : OblRecord) (t due : Date) (st : String) : PayRecord :=
  { org_id := o.org_id, obligation_id := o.id, outlet_id := o.outlet_id,
    period_month := t.month, period_year := t.year,
    due_date := due, due_amount := o.amount, status := st }

/-- One (obligation, month-offset) step of the generator: returns the
grown table and the number of rows inserted (0 or 1). -/
def payStep (o : OblRecord) (dueDay : Int) (today : Date) (i : Nat)
    (ps : List PayRecord) : Except PyErr (List PayRecord × Nat) := do
  let target ← liftVE (addMonths today (i : Int))
  if windowSkip o target.year target.month then pure (ps, 0)
  else if existsRec ps o.id target.year target.month then pure (ps, 0)
  else do
    let due ← mkDateE target.year target.month (min dueDay 28)
    let t7 ← liftOF (addDays today 7)
    pure (ps ++ [payRecOf o target due (payStatusOf due today t7)], 1)

def payMonths (o : OblRecord) (dueDay : Int) (today : Date) :
    List Nat → List PayRecord → Nat → Except PyErr (List PayRecord × Nat)
  | [], ps, c => .ok (ps, c)
  | i :: rest, ps, c => do
    let r ← payStep o dueDay today i ps
    payMonths o dueDay today rest r.1 (c + r.2)

def payObls (today : Date) (n : Nat) :
    List OblRecord → List PayRecord → Nat → Except PyErr (List PayRecord × Nat)
  | [], ps, c => .ok (ps, c)
  | o :: rest, ps, c => do
    let r ← payMonths o (pyOrInt o.due_day_of_month 1) today (List.range n) ps c
    payObls today n rest r.1 r.2

/-- `generate_payment_records` (src/backend/main.py:1619-1684) over an
explicit table state: takes the stored obligation rows and the existing
payment rows, returns the final payment rows and the created count. -/
def genPayments (obls : List OblRecord) (ps : List PayRecord) (today : Date)
    (monthsAhead : Nat) : Except PyErr (List PayRecord × Nat) :=
  payObls today monthsAhead
    (obls.filter (fun o => o.is_active && o.frequency != ("one_time"))) ps 0

/-! ### Order lemmas for dates -/

theorem dateLt_irrefl (a : Date) : ¬ Date.Lt a a := by
  obtain ⟨y, m, d⟩ := a; simp [Date.Lt]

theorem dateLt_trans {a b c : Date} (h1 : Date.Lt a b) (h2 : Date.Lt b c) :
    Date.Lt a c := by
  obtain ⟨y1, m1, d1⟩ := a; obtain ⟨y2, m2, d2⟩ := b; obtain ⟨y3, m3, d3⟩ := c
  simp only [Date.Lt] at *; omega

theorem dateLe_of_lt {a b : Date} (h : Date.Lt a b) : Date.Le a b := by
  obtain ⟨y1, m1, d1⟩ := a; obtain ⟨y2, m2, d2⟩ := b
  simp only [Date.Lt, Date.Le] at *; omega

theorem dateLt_of_le_of_lt {a b c : Date} (h1 : Date.Le a b) (h2 : Date.Lt b c) :
    Date.Lt a c := by
  obtain ⟨y1, m1, d1⟩ := a; obtain ⟨y2, m2, d2⟩ := b; obtain ⟨y3, m3, d3⟩ := c
  simp only [Date.Lt, Date.Le] at *; omega

theorem dateLt_of_lt_of_le {a b c : Date} (h1 : Date.Lt a b) (h2 : Date.Le b c) :
    Date.Lt a c := by
  obtain ⟨y1, m1, d1⟩ := a; obtain ⟨y2, m2, d2⟩ := b; obtain ⟨y3, m3, d3⟩ := c
  simp only [Date.Lt, Date.Le] at *; omega

theorem dateLe_trans {a b c : Date} (h1 : Date.Le a b) (h2 : Date.Le b c) :
    Date.Le a c := by
  obtain ⟨y1, m1, d1⟩ := a; obtain ⟨y2, m2, d2⟩ := b; obtain ⟨y3, m3, d3⟩ := c
  simp only [Date.Le] at *; omega

theorem dateNotLt_iff_le {a b : Date} : ¬ Date.Lt a b ↔ Date.Le b a := by
  obtain ⟨y1, m1, d1⟩ := a; obtain ⟨y2, m2, d2⟩ := b
  simp only [Date.Lt, Date.Le]; omega

/-! ### Day-stepping lemmas -/

theorem subDays_zero (d : Date) : subDays d 0 = some d := rfl

theorem subDays_succ (d : Date) (n : Nat) :
    subDays d (n + 1) = (prevDay d).bind (fun e => subDays e n) := rfl

theorem prevDay_lt {d e : Date} (h : prevDay d = some e) : Date.Lt e d := by
  obtain ⟨y, m, dd⟩ := d
  unfold prevDay at h
  simp only at h
  split_ifs at h with h1 h2 h3
  · injection h with h
    subst h
    exact Or.inr ⟨rfl, Or.inr ⟨rfl, show dd - 1 < dd by omega⟩⟩
  · injection h with h
    subst h
    exact Or.inr ⟨rfl, Or.inl (show m - 1 < m by omega)⟩
  · injection h with h
    subst h
    exact Or.inl (show y - 1 < y by omega)

theorem subDays_add (d : Date) (m n : Nat) :
    subDays d (m + n) = (subDays d m).bind (fun e => subDays e n) := by
  induction m generalizing d with
  | zero => simp [subDays_zero]
  | succ k ih =>
    rw [show k + 1 + n = (k + n) + 1 by omega, subDays_succ, subDays_succ]
    cases hp : prevDay d with
    | none => rfl
    | some e =>
      show subDays e (k + n) = (subDays e k).bind (fun x => subDays x n)
      exact ih e

theorem subDays_lt {n : Nat} (hn : 1 ≤ n) :
    ∀ {d e : Date}, subDays d n = some e → Date.Lt e d := by
  induction n with
  | zero => omega
  | succ k ih =>
    intro d e h
    rw [subDays_succ] at h
    cases hp : prevDay d with
    | none => rw [hp] at h; exact absurd h (by simp)
    | some d2 =>
      rw [hp] at h
      have hd2 : Date.Lt d2 d := prevDay_lt hp
      rcases Nat.eq_zero_or_pos k with hk | hk
      · subst hk
        rw [show ((some d2).bind fun e => subDays e 0) = some d2 from rfl] at h
        injection h with h
        subst h
        exact hd2
      · exact dateLt_trans (ih hk h) hd2

theorem subDays_lt_subDays {d a b : Date} {m n : Nat} (hmn : m < n)
    (ha : subDays d n = some a) (hb : subDays d m = some b) : Date.Lt a b := by
  rw [show n = m + (n - m) by omega, subDays_add, hb] at ha
  exact subDays_lt (by omega) ha

theorem subDays_le {n : Nat} {d e : Date} (h : subDays d n = some e) :
    Date.Le e d := by
  rcases Nat.eq_zero_or_pos n with hn | hn
  · subst hn
    rw [subDays_zero] at h
    injection h with h
    subst h
    obtain ⟨y, m, dd⟩ := d
    exact Or.inr ⟨rfl, Or.inr ⟨rfl, le_refl _⟩⟩
  · exact dateLe_of_lt (subDays_lt hn h)

/-! ### Claim C8 -/

theorem tryFmt_valid {toks : List FTok} {cs : List Char} {d : Date}
    (h : tryFmt toks cs = some d) : d.IsValid := by
  unfold tryFmt at h
  rcases hr : runToks toks cs ⟨none, none, none⟩ with _ | pd
  · rw [hr] at h; simp at h
  · rw [hr] at h
    obtain ⟨oy, om, od⟩ := pd
    cases oy <;> cases om <;> cases od <;> simp_all
    unfold dateFromYMD at h
    split_ifs at h with hv
    injection h with h
    subst h
    exact hv

theorem get_date_valid {f : Option JVal} {d : Date} (h : get_date f = some d) :
    d.IsValid := by
  unfold get_date at h
  rcases hv : get_val f with _ | v
  · rw [hv] at h; simp at h
  · rw [hv] at h
    cases v <;> simp_all
    rcases List.exists_of_findSome?_eq_some h with ⟨toks, _, htf⟩
    exact tryFmt_valid htf

/-- Wherever the exception-explicit `get_numE` returns normally, the
totalized `get_num` used by the derivation wiring agrees with it. -/
theorem get_num_total_agrees (f : Option JVal) (o : Option PyFloat)
    (h : get_numE f = .ok o) : get_num f = o := by
  unfold get_num
  rw [h]

set_option maxRecDepth 4096 in
/-- Claim C8: refuted.  `json.loads` parses a 400-digit JSON integer
literal as a Python `int`; the value passes `get_val` unchanged (it is
neither `None` nor a sentinel), and `float(v)` at
src/backend/main.py:390 then raises `OverflowError: int too large to
convert to float`, which the `except (ValueError, TypeError)` clause
at line 391 does not catch — so `get_num` raises instead of returning
`None`. -/
theorem C8_get_num_raises :
    get_val (some (.int (10 ^ 400))) = some (.int (10 ^ 400)) ∧
    pyFloatFn (.int (10 ^ 400)) = .error .overflowError ∧
    get_numE (some (.int (10 ^ 400))) = .error .overflowError :=
  ⟨rfl, by decide, by decide⟩

/-! ### Except-monad computation lemmas -/

theorem exBind_ok {ε α β : Type} (a : α) (f : α → Except ε β) :
    (Except.ok a : Except ε α) >>= f = f a := rfl

theorem exBind_error {ε α β : Type} (e : ε) (f : α → Except ε β) :
    (Except.error e : Except ε α) >>= f = .error e := rfl

theorem exPure {ε α : Type} (a : α) : (pure a : Except ε α) = .ok a := rfl

/-! ### Claim C3 -/

/-- The agreement record's rent summary fields come from the
first-element schedule lookups. -/
theorem createAgreement_rent_fields {ex : JVal} {d f o1 o2 n : String}
    {ag : AgreementData} (h : createAgreementData ex d f o1 o2 n = .ok ag) :
    ag.monthly_rent = monthlyRentFrom (getSection ex ("rent")) ∧
    ag.rent_per_sqft = rentPerSqftFrom (getSection ex ("rent")) := by
  simp only [createAgreementData] at h
  cases hrm : rentModelOf (getSection ex ("rent")) with
  | error e =>
    rw [hrm, exBind_error] at h
    exact Except.noConfusion h
  | ok rm =>
    rw [hrm, exBind_ok] at h
    cases hle : lockEndOf
        (get_date ((getSection ex ("lease_term")).lookup ("lease_commencement_date")))
        (get_num ((getSection ex ("lease_term")).lookup ("lock_in_months"))) with
    | error e =>
      rw [hle, exBind_error] at h
      exact Except.noConfusion h
    | ok le =>
      rw [hle, exBind_ok, exPure] at h
      injection h with h
      subst h
      exact ⟨rfl, rfl⟩

/-- Destructuring of a successful `generate_obligations` run into the
rent block and the pure blocks. -/
theorem genObligations_ok_elim {ex : JVal} {a o g : String} {l : List Obligation}
    (h : genObligations ex a o g = .ok l) :
    ∃ ne pd rl,
      rentOblsOf g a o (monthlyRentFrom (getSection ex ("rent")))
        (get_num ((getSection ex ("rent")).lookup ("escalation_frequency_years")))
        (get_num ((getSection ex ("rent")).lookup ("escalation_percentage"))) pd
        ((get_date ((getSection ex ("lease_term")).lookup ("rent_commencement_date"))).or
          (get_date ((getSection ex ("lease_term")).lookup ("lease_commencement_date"))))
        (get_date ((getSection ex ("lease_term")).lookup ("lease_expiry_date"))) ne = .ok rl ∧
      l = rl ++ pureOblGroups ex a o g pd := by
  simp only [genObligations] at h
  cases hne : nextEscOf
      ((get_date ((getSection ex ("lease_term")).lookup ("rent_commencement_date"))).or
        (get_date ((getSection ex ("lease_term")).lookup ("lease_commencement_date"))))
      (get_num ((getSection ex ("rent")).lookup ("escalation_frequency_years"))) with
  | error e =>
    rw [hne, exBind_error] at h
    exact Except.noConfusion h
  | ok ne =>
    rw [hne, exBind_ok] at h
    cases hpd : (pyOrLit (get_num ((getSection ex ("rent")).lookup ("mglr_payment_day"))) 7).toPyInt with
    | error e =>
      rw [hpd, exBind_error] at h
      exact Except.noConfusion h
    | ok pd =>
      rw [hpd, exBind_ok] at h
      cases hrl : rentOblsOf g a o (monthlyRentFrom (getSection ex ("rent")))
          (get_num ((getSection ex ("rent")).lookup ("escalation_frequency_years")))
          (get_num ((getSection ex ("rent")).lookup ("escalation_percentage"))) pd
          ((get_date ((getSection ex ("lease_term")).lookup ("rent_commencement_date"))).or
            (get_date ((getSection ex ("lease_term")).lookup ("lease_commencement_date"))))
          (get_date ((getSection ex ("lease_term")).lookup ("lease_expiry_date"))) ne with
      | error e =>
        rw [hrl, exBind_error] at h
        exact Except.noConfusion h
      | ok rl =>
        rw [hrl, exBind_ok, exPure] at h
        injection h with h
        exact ⟨ne, pd, rl, hrl, h.symm⟩

/-- Any obligation in the rent block has type `"rent"` and carries the
truthy schedule amount. -/
theorem rentOblsOf_mem {g a o : String} {mr ef ep : Option PyFloat} {pd : Int}
    {sd ed ne : Option Date} {rl : List Obligation}
    (h : rentOblsOf g a o mr ef ep pd sd ed ne = .ok rl) :
    ∀ ob ∈ rl, ob.type = ("rent") ∧
      ∃ v, mr = some v ∧ v.truthy = true ∧ ob.amount = some v := by
  unfold rentOblsOf at h
  split at h
  · rename_i v
    split at h
    · rename_i hv
      split at h
      · exact Except.noConfusion h
      · injection h with h
        subst h
        intro ob hob
        simp only [List.mem_singleton] at hob
        subst hob
        exact ⟨rfl, v, rfl, hv, rfl⟩
    · injection h with h
      subst h
      intro ob hob
      exact absurd hob (by simp)
  · injection h with h
    subst h
    intro ob hob
    exact absurd hob (by simp)

theorem camOblsOf_mem {g a o : String} {cm ce : Option PyFloat} {pd : Int}
    {sd ed : Option Date} : ∀ ob ∈ camOblsOf g a o cm ce pd sd ed, ob.type = ("cam") := by
  intro ob hob
  unfold camOblsOf at hob
  split at hob
  · split at hob
    · simp only [List.mem_singleton] at hob
      subst hob
      rfl
    · exact absurd hob (by simp)
  · exact absurd hob (by simp)

theorem hvacOblsOf_mem {g a o basis : String} {hr ar : Option PyFloat} {pd : Int}
    {sd ed : Option Date} :
    ∀ ob ∈ hvacOblsOf g a o hr ar basis pd sd ed,
      ob.type = ("hvac") ∧
      ∃ r v, hr = some r ∧ r.truthy = true ∧ ar = some v ∧ v.truthy = true ∧
        ob.amount = some (pyMul r v) ∧ ob.amount_formula ≠ none := by
  intro ob hob
  unfold hvacOblsOf at hob
  split at hob
  · rename_i r
    split at hob
    · rename_i hrt
      split at hob
      · rename_i v
        split at hob
        · rename_i hvt
          simp only [List.mem_singleton] at hob
          subst hob
          exact ⟨rfl, r, v, rfl, hrt, rfl, hvt, rfl, by simp⟩
        · exact absurd hob (by simp)
      · exact absurd hob (by simp)
    · exact absurd hob (by simp)
  · exact absurd hob (by simp)

theorem elecOblsOf_mem {g a o : String} {el : Option PyFloat} {pd : Int}
    {sd ed : Option Date} :
    ∀ ob ∈ elecOblsOf g a o el pd sd ed, ob.type = ("electricity") := by
  intro ob hob
  unfold elecOblsOf at hob
  split at hob
  · split at hob
    · simp only [List.mem_singleton] at hob
      subst hob
      rfl
    · exact absurd hob (by simp)
  · exact absurd hob (by simp)

theorem depositOblsOf_mem {g a o typ : String} {dep : Option PyFloat}
    {sd : Option Date} : ∀ ob ∈ depositOblsOf g a o typ dep sd, ob.type = typ := by
  intro ob hob
  unfold depositOblsOf at hob
  split at hob
  · split at hob
    · simp only [List.mem_singleton] at hob
      subst hob
      rfl
    · exact absurd hob (by simp)
  · exact absurd hob (by simp)

theorem utilOblsOf_mem {g a o : String} {ud el : Option PyFloat} {sd : Option Date} :
    ∀ ob ∈ utilOblsOf g a o ud el sd, ob.type = ("utility_deposit") := by
  intro ob hob
  unfold utilOblsOf at hob
  split at hob
  · split at hob
    · simp only [List.mem_singleton] at hob
      subst hob
      rfl
    · exact absurd hob (by simp)
  · exact absurd hob (by simp)

/-- Every obligation outside the rent block has one of the other six
charge types. -/
theorem pureOblGroups_types {ex : JVal} {a o g : String} {pd : Int} :
    ∀ ob ∈ pureOblGroups ex a o g pd,
      ob.type = ("cam") ∨ ob.type = ("hvac") ∨ ob.type = ("electricity") ∨
      ob.type = ("security_deposit") ∨ ob.type = ("cam_deposit") ∨
      ob.type = ("utility_deposit") := by
  intro ob hob
  unfold pureOblGroups at hob
  simp only [List.mem_append] at hob
  rcases hob with ((((h | h) | h) | h) | h) | h
  · exact Or.inl (camOblsOf_mem ob h)
  · exact Or.inr (Or.inl (hvacOblsOf_mem ob h).1)
  · exact Or.inr (Or.inr (Or.inl (elecOblsOf_mem ob h)))
  · exact Or.inr (Or.inr (Or.inr (Or.inl (depositOblsOf_mem ob h))))
  · exact Or.inr (Or.inr (Or.inr (Or.inr (Or.inl (depositOblsOf_mem ob h)))))
  · exact Or.inr (Or.inr (Or.inr (Or.inr (Or.inr (utilOblsOf_mem ob h)))))

/-- Modelled from the claim's words for C3: the first key whose value
normalizes to a non-null number wins. -/
def claimFirstNonNull (first : JVal) (keys : List String) : Option PyFloat :=
  keys.findSome? (fun k => get_num (jget first k))

/-- Modelled from the amended claim for C3: the first key whose value
normalizes to a truthy (non-null, nonzero) number wins; keys
normalizing to null or zero are passed over, and when no key qualifies
the result is the last key's normalized value. -/
def amendedFirstLookup : JVal → List String → Option PyFloat
  | _, [] => none
  | first, [k] => get_num (jget first k)
  | first, k :: k2 :: rest =>
    match get_num (jget first k) with
    | some v => if v.truthy then some v else amendedFirstLookup first (k2 :: rest)
    | none => amendedFirstLookup first (k2 :: rest)

theorem amended_eq_pyOr2 (first : JVal) (k1 k2 : String) :
    amendedFirstLookup first [k1, k2] =
      pyOrF (get_num (jget first k1)) (get_num (jget first k2)) := by
  unfold amendedFirstLookup pyOrF
  cases get_num (jget first k1) with
  | none => rfl
  | some v => rfl

theorem amended_eq_pyOr3 (first : JVal) (k1 k2 k3 : String) :
    amendedFirstLookup first [k1, k2, k3] =
      pyOrF (get_num (jget first k1))
        (pyOrF (get_num (jget first k2)) (get_num (jget first k3))) := by
  rw [show amendedFirstLookup first [k1, k2, k3] =
      (match get_num (jget first k1) with
       | some v => if v.truthy then some v else amendedFirstLookup first [k2, k3]
       | none => amendedFirstLookup first [k2, k3]) from rfl]
  rw [amended_eq_pyOr2]
  cases get_num (jget first k1) with
  | none => rfl
  | some v => rfl

def schedZeroFirst : List (String × JVal) :=
  [(("rent_schedule"), .arr [.obj [(("mglr_monthly"), .num 0), (("monthly_rent"), .num 500)]])]

def firstZeroElem : JVal := .obj [(("mglr_monthly"), .num 0), (("monthly_rent"), .num 500)]

def exZeroFirst : JVal := .obj [(("rent"), .obj schedZeroFirst)]

/-- Claim C3 (counterexample): with `rent_schedule = [{mglr_monthly: 0,
monthly_rent: 500}]` the first key normalizes to the non-null number 0,
so under the claim's stated rule the monthly rent would be 0; the
code's `or`-chain skips the falsy 0 and the monthly rent actually used
(and stored on the agreement) is 500. -/
theorem C3_counterexample :
    claimFirstNonNull firstZeroElem [("mglr_monthly"), ("monthly_rent"), ("rent")] =
      some (.finite 0) ∧
    monthlyRentFrom schedZeroFirst = some (.finite 500) ∧
    (createAgreementData exZeroFirst ("t") ("f") ("o1") ("o2") ("n")).toOption.map
      (fun ag => ag.monthly_rent) = some (some (.finite 500)) ∧
    monthlyRentFrom schedZeroFirst ≠
      claimFirstNonNull firstZeroElem [("mglr_monthly"), ("monthly_rent"), ("rent")] :=
  ⟨rfl, rfl, rfl, by decide⟩

/-- Claim C3 (amended): whenever `rent_schedule` unwraps to a non-empty
list whose first element is a mapping, the monthly rent used by the
Agreement materializer and the rent-obligation deriver comes from that
first element only, taking the first key among `mglr_monthly`,
`monthly_rent`, `rent` whose value normalizes to a non-null *nonzero*
number (keys normalizing to null or zero are passed over; with no
qualifying key the result is the last key's normalized value), and the
per-area rate likewise checks `mglr_per_sqft` then `rent_per_sqft`. -/
theorem C3_first_element_rent_lookup :
    (∀ (rentSec : List (String × JVal)) (first : JVal) (fs : List (String × JVal))
        (rest : List JVal),
      get_val (rentSec.lookup ("rent_schedule")) = some (.arr (first :: rest)) →
      first = .obj fs →
      monthlyRentFrom rentSec =
        amendedFirstLookup first [("mglr_monthly"), ("monthly_rent"), ("rent")] ∧
      rentPerSqftFrom rentSec =
        amendedFirstLookup first [("mglr_per_sqft"), ("rent_per_sqft")]) ∧
    (∀ ex d f o1 o2 n ag, createAgreementData ex d f o1 o2 n = .ok ag →
      ag.monthly_rent = monthlyRentFrom (getSection ex ("rent")) ∧
      ag.rent_per_sqft = rentPerSqftFrom (getSection ex ("rent"))) ∧
    (∀ ex a o g l, genObligations ex a o g = .ok l →
      ∀ ob ∈ l, ob.type = ("rent") →
        ∃ mr, monthlyRentFrom (getSection ex ("rent")) = some mr ∧ mr.truthy = true ∧
          ob.amount = some mr) := by
  refine ⟨?_, ?_, ?_⟩
  · intro rentSec first fs rest hsched hfirst
    constructor
    · unfold monthlyRentFrom
      rw [hsched, amended_eq_pyOr3]
      subst hfirst
      rfl
    · unfold rentPerSqftFrom
      rw [hsched, amended_eq_pyOr2]
      subst hfirst
      rfl
  · intro ex d f o1 o2 n ag h
    exact createAgreement_rent_fields h
  · intro ex a o g l h ob hob htype
    obtain ⟨ne, pd, rl, hrl, hl⟩ := genObligations_ok_elim h
    subst hl
    rcases List.mem_append.mp hob with hmem | hmem
    · obtain ⟨_, v, hv1, hv2, hv3⟩ := rentOblsOf_mem hrl ob hmem
      exact ⟨v, hv1, hv2, hv3⟩
    · rcases pureOblGroups_types ob hmem with ht | ht | ht | ht | ht | ht <;>
        rw [htype] at ht <;> exact absurd ht (by decide)

/-- Witness for C3 (amended): the lookups agree at a concrete schedule
whose first element is a mapping, and a concrete successful run stores
that value. -/
theorem C3_witness :
    monthlyRentFrom schedZeroFirst =
      amendedFirstLookup firstZeroElem [("mglr_monthly"), ("monthly_rent"), ("rent")] ∧
    amendedFirstLookup firstZeroElem [("mglr_monthly"), ("monthly_rent"), ("rent")] =
      some (.finite 500) :=
  ⟨(C3_first_element_rent_lookup.1 schedZeroFirst firstZeroElem
      [(("mglr_monthly"), .num 0), (("monthly_rent"), .num 500)] [] rfl rfl).1,
    by decide⟩

/-! ### Claim C9 -/

/-- Membership decomposition for the hvac group of `pureOblGroups`. -/
theorem pureOblGroups_hvac_mem {ex : JVal} {a o g : String} {pd : Int} {ob : Obligation}
    (hob : ob ∈ pureOblGroups ex a o g pd) (htype : ob.type = ("hvac")) :
    ∃ r v, get_num ((getSection ex ("charges")).lookup ("hvac_rate_per_sqft")) = some r ∧
      r.truthy = true ∧
      pyOrF (get_num ((getSection ex ("premises")).lookup ("covered_area_sqft")))
            (get_num ((getSection ex ("premises")).lookup ("super_area_sqft"))) = some v ∧
      v.truthy = true ∧
      ob.amount = some (pyMul r v) ∧ ob.amount_formula ≠ none := by
  unfold pureOblGroups at hob
  simp only [List.mem_append] at hob
  rcases hob with ((((h | h) | h) | h) | h) | h
  · rw [camOblsOf_mem ob h] at htype
    exact absurd htype (by decide)
  · obtain ⟨_, r, v, h1, h2, h3, h4, h5, h6⟩ := hvacOblsOf_mem ob h
    exact ⟨r, v, h1, h2, h3, h4, h5, h6⟩
  · rw [elecOblsOf_mem ob h] at htype
    exact absurd htype (by decide)
  · rw [depositOblsOf_mem ob h] at htype
    exact absurd htype (by decide)
  · rw [depositOblsOf_mem ob h] at htype
    exact absurd htype (by decide)
  · rw [utilOblsOf_mem ob h] at htype
    exact absurd htype (by decide)

/-- An extraction carrying only an hvac rate and a covered area. -/
def exHvacOnly (r a : ℚ) : JVal :=
  .obj [(("charges"), .obj [(("hvac_rate_per_sqft"), .num r)]),
        (("premises"), .obj [(("covered_area_sqft"), .num a)])]

/-- Claim C9: with only `hvac_rate_per_sqft` and `covered_area_sqft`
present (as nonzero numbers), the deriver produces exactly one
obligation — hvac, monthly, amount = rate × area, with a formula string
— and none of any other type; in general an hvac obligation's amount is
rate × (covered area falling back to super area), the fallback applies
when covered is absent, and the hvac obligation is skipped when no rate
or no area is available. -/
theorem C9_hvac_obligation :
    (∀ r a : ℚ, r ≠ 0 → a ≠ 0 →
      genObligations (exHvacOnly r a) ("agr") ("out") ("org") =
        .ok [{ org_id := ("org"), agreement_id := ("agr"), outlet_id := ("out"),
               type := ("hvac"), frequency := ("monthly"),
               amount := some (.finite (r * a)),
               amount_formula := some (fmtFloat (.finite r) ++ ("/sqft x ") ++
                 fmtFloat (.finite a) ++ (" sqft (") ++ ("covered_area") ++ (")")),
               due_day_of_month := some 7 }]) ∧
    (∀ ex a o g l, genObligations ex a o g = .ok l →
      ∀ ob ∈ l, ob.type = ("hvac") →
        ∃ r v, get_num ((getSection ex ("charges")).lookup ("hvac_rate_per_sqft")) = some r ∧
          r.truthy = true ∧
          pyOrF (get_num ((getSection ex ("premises")).lookup ("covered_area_sqft")))
                (get_num ((getSection ex ("premises")).lookup ("super_area_sqft"))) = some v ∧
          v.truthy = true ∧
          ob.amount = some (pyMul r v) ∧ ob.amount_formula ≠ none) ∧
    (∀ ex, get_num ((getSection ex ("premises")).lookup ("covered_area_sqft")) = none →
      pyOrF (get_num ((getSection ex ("premises")).lookup ("covered_area_sqft")))
            (get_num ((getSection ex ("premises")).lookup ("super_area_sqft"))) =
        get_num ((getSection ex ("premises")).lookup ("super_area_sqft"))) ∧
    (∀ ex a o g l, genObligations ex a o g = .ok l →
      get_num ((getSection ex ("charges")).lookup ("hvac_rate_per_sqft")) = none →
      ∀ ob ∈ l, ob.type ≠ ("hvac")) ∧
    (∀ ex a o g l, genObligations ex a o g = .ok l →
      pyOrF (get_num ((getSection ex ("premises")).lookup ("covered_area_sqft")))
            (get_num ((getSection ex ("premises")).lookup ("super_area_sqft"))) = none →
      ∀ ob ∈ l, ob.type ≠ ("hvac")) := by
  have hgen : ∀ ex (a o g : String) l, genObligations ex a o g = .ok l →
      ∀ ob ∈ l, ob.type = ("hvac") →
        ∃ r v, get_num ((getSection ex ("charges")).lookup ("hvac_rate_per_sqft")) = some r ∧
          r.truthy = true ∧
          pyOrF (get_num ((getSection ex ("premises")).lookup ("covered_area_sqft")))
                (get_num ((getSection ex ("premises")).lookup ("super_area_sqft"))) = some v ∧
          v.truthy = true ∧
          ob.amount = some (pyMul r v) ∧ ob.amount_formula ≠ none := by
    intro ex a o g l h ob hob htype
    obtain ⟨ne, pd, rl, hrl, hl⟩ := genObligations_ok_elim h
    subst hl
    rcases List.mem_append.mp hob with hmem | hmem
    · obtain ⟨ht, _⟩ := rentOblsOf_mem hrl ob hmem
      rw [ht] at htype
      exact absurd htype (by decide)
    · exact pureOblGroups_hvac_mem hmem htype
  refine ⟨?_, hgen, ?_, ?_, ?_⟩
  · intro r a hr ha
    have hrt : (PyFloat.finite r).truthy = true := by
      simp only [PyFloat.truthy, bne_iff_ne, ne_eq]
      exact hr
    have hat : (PyFloat.finite a).truthy = true := by
      simp only [PyFloat.truthy, bne_iff_ne, ne_eq]
      exact ha
    have hhv : hvacOblsOf ("org") ("agr") ("out") (some (.finite r))
        (pyOrF (some (.finite a)) none) ("covered_area") 7 none none =
        [{ org_id := ("org"), agreement_id := ("agr"), outlet_id := ("out"),
           type := ("hvac"), frequency := ("monthly"),
           amount := some (.finite (r * a)),
           amount_formula := some (fmtFloat (.finite r) ++ ("/sqft x ") ++
             fmtFloat (.finite a) ++ (" sqft (") ++ ("covered_area") ++ (")")),
           due_day_of_month := some 7 }] := by
      simp only [hvacOblsOf, pyOrF, pyMul, hat, hrt, if_true]
    show Except.ok (hvacOblsOf ("org") ("agr") ("out") (some (.finite r))
        (pyOrF (some (.finite a)) none) ("covered_area") 7 none none ++
        [] ++ [] ++ [] ++ []) = _
    rw [hhv]
    rfl
  · intro ex hc
    rw [hc]
    rfl
  · intro ex a o g l h hrate ob hob htype
    obtain ⟨r, v, h1, _⟩ := hgen ex a o g l h ob hob htype
    rw [hrate] at h1
    exact Option.noConfusion h1
  · intro ex a o g l h harea ob hob htype
    obtain ⟨r, v, _, _, h3, _⟩ := hgen ex a o g l h ob hob htype
    rw [harea] at h3
    exact Option.noConfusion h3

/-- Witness for C9: the exact-family part instantiated at rate 5 and
area 100. -/
theorem C9_witness :
    genObligations (exHvacOnly 5 100) ("agr") ("out") ("org") =
      .ok [{ org_id := ("org"), agreement_id := ("agr"), outlet_id := ("out"),
             type := ("hvac"), frequency := ("monthly"),
             amount := some (.finite (5 * 100)),
             amount_formula := some (fmtFloat (.finite 5) ++ ("/sqft x ") ++
               fmtFloat (.finite 100) ++ (" sqft (") ++ ("covered_area") ++ (")")),
             due_day_of_month := some 7 }] :=
  C9_hvac_obligation.1 5 100 (by decide) (by decide)

/-! ### Claim C1 -/

/-- A well-formed but very early expiry date: the `180`-day lead
subtraction falls below `date.min` and raises `OverflowError` outside
every `try` block. -/
def exBadDate : JVal :=
  .obj [(("lease_term"), .obj [(("lease_expiry_date"), .str ("0001-01-05"))])]

/-- `mglr_payment_day` normalizing to `nan`: `int(nan)` at
src/backend/main.py:580 raises `ValueError` with no enclosing `try`. -/
def exNanPaymentDay : JVal :=
  .obj [(("rent"), .obj [(("mglr_payment_day"), .str ("nan"))])]

/-- Claim C1 (refuted — evaluation of the code at the failing inputs):
`generate_alerts` raises `OverflowError` for a lease expiring within
180 days of 0001-01-01, and `generate_obligations` raises `ValueError`
when the payment day normalizes to `nan`; neither derivation is total
over arbitrary extraction shapes. -/
theorem C1_derivation_raises :
    genAlerts exBadDate ("agr") ("out") ("org") ⟨2025, 1, 1⟩ = .error .overflowError ∧
    genObligations exNanPaymentDay ("agr") ("out") ("org") = .error .valueError :=
  ⟨by decide, by decide⟩

/-! ### Claim C7 -/

/-- `lock_in_months` normalizing to `float('inf')`: `int(inf)` inside
the lock-in `try` raises `OverflowError`, which the
`except (ValueError, TypeError)` does not catch. -/
def exLockInInf : JVal :=
  .obj [(("lease_term"),
    .obj [(("lease_commencement_date"), .str ("2024-02-01")),
          (("lock_in_months"), .str ("inf"))])]

/-- Claim C7 (refuted — evaluation of the code at the failing input):
with `lock_in_months = "inf"` both inputs normalize as truthy, and the
calendar arithmetic raises an `OverflowError` that escapes
`create_agreement_record` instead of being swallowed. -/
theorem C7_lockin_error_escapes :
    createAgreementData exLockInInf ("lease_loi") ("f.pdf") ("org") ("out") ("now") =
      .error .overflowError :=
  rfl

/-! ### Claim C4 -/

theorem leaseExpiryGo_mem {g o a : String} {expiry today : Date} {leads : List Nat}
    {l : List Alert} (h : leaseExpiryGo g o a expiry today leads = .ok l) :
    ∀ al ∈ l, al.type = ("lease_expiry") ∧ al.reference_date = expiry ∧
      al.lead_days ∈ leads ∧ subDays expiry al.lead_days = some al.trigger_date ∧
      Date.Le today al.trigger_date := by
  induction leads generalizing l with
  | nil =>
    unfold leaseExpiryGo at h
    injection h with h
    subst h
    intro al hal
    exact absurd hal (by simp)
  | cons lead rest ih =>
    unfold leaseExpiryGo at h
    cases hs : subDays expiry lead with
    | none =>
      rw [hs] at h
      simp only [liftOF, exBind_error] at h
      exact Except.noConfusion h
    | some trig =>
      rw [hs] at h
      simp only [liftOF, exBind_ok] at h
      cases hr : leaseExpiryGo g o a expiry today rest with
      | error e =>
        rw [hr] at h
        simp only [exBind_error] at h
        exact Except.noConfusion h
      | ok tail =>
        rw [hr] at h
        simp only [exBind_ok, exPure] at h
        injection h with h
        subst h
        intro al hal
        rcases List.mem_append.mp hal with hmem | hmem
        · by_cases hle : Date.Le today trig
          · rw [if_pos hle] at hmem
            simp only [List.mem_singleton] at hmem
            subst hmem
            exact ⟨rfl, rfl, List.mem_cons.mpr (Or.inl rfl), hs, hle⟩
          · rw [if_neg hle] at hmem
            exact absurd hmem (by simp)
        · obtain ⟨h1, h2, h3, h4, h5⟩ := ih hr al hmem
          exact ⟨h1, h2, List.mem_cons_of_mem _ h3, h4, h5⟩

theorem lockInGo_mem {g o a : String} {lockEnd today : Date} {leads : List Nat}
    {l : List Alert} (h : lockInGo g o a lockEnd today leads = .ok l) :
    ∀ al ∈ l, al.type = ("lock_in_expiry") ∧ al.reference_date = lockEnd ∧
      al.lead_days ∈ leads ∧ subDays lockEnd al.lead_days = some al.trigger_date ∧
      Date.Le today al.trigger_date := by
  induction leads generalizing l with
  | nil =>
    unfold lockInGo at h
    injection h with h
    subst h
    intro al hal
    exact absurd hal (by simp)
  | cons lead rest ih =>
    unfold lockInGo at h
    cases hs : subDays lockEnd lead with
    | none =>
      rw [hs] at h
      simp only [liftOF, exBind_error] at h
      exact Except.noConfusion h
    | some trig =>
      rw [hs] at h
      simp only [liftOF, exBind_ok] at h
      cases hr : lockInGo g o a lockEnd today rest with
      | error e =>
        rw [hr] at h
        simp only [exBind_error] at h
        exact Except.noConfusion h
      | ok tail =>
        rw [hr] at h
        simp only [exBind_ok, exPure] at h
        injection h with h
        subst h
        intro al hal
        rcases List.mem_append.mp hal with hmem | hmem
        · by_cases hle : Date.Le today trig
          · rw [if_pos hle] at hmem
            simp only [List.mem_singleton] at hmem
            subst hmem
            exact ⟨rfl, rfl, List.mem_cons.mpr (Or.inl rfl), hs, hle⟩
          · rw [if_neg hle] at hmem
            exact absurd hmem (by simp)
        · obtain ⟨h1, h2, h3, h4, h5⟩ := ih hr al hmem
          exact ⟨h1, h2, List.mem_cons_of_mem _ h3, h4, h5⟩

theorem escGo_mem {g o a : String} {escD : Date} {pct : PyFloat} {today : Date}
    {leads : List Nat} {l : List Alert}
    (h : escGo g o a escD pct today leads = .ok l) :
    ∀ al ∈ l, al.type = ("escalation") ∧ al.reference_date = escD ∧
      al.lead_days ∈ leads ∧ subDays escD al.lead_days = some al.trigger_date ∧
      Date.Le today al.trigger_date := by
  induction leads generalizing l with
  | nil =>
    unfold escGo at h
    injection h with h
    subst h
    intro al hal
    exact absurd hal (by simp)
  | cons lead rest ih =>
    unfold escGo at h
    cases hs : subDays escD lead with
    | none =>
      rw [hs] at h
      simp only [liftOF, exBind_error] at h
      exact Except.noConfusion h
    | some trig =>
      rw [hs] at h
      simp only [liftOF, exBind_ok] at h
      cases hr : escGo g o a escD pct today rest with
      | error e =>
        rw [hr] at h
        simp only [exBind_error] at h
        exact Except.noConfusion h
      | ok tail =>
        rw [hr] at h
        simp only [exBind_ok, exPure] at h
        injection h with h
        subst h
        intro al hal
        rcases List.mem_append.mp hal with hmem | hmem
        · by_cases hle : Date.Le today trig
          · rw [if_pos hle] at hmem
            simp only [List.mem_singleton] at hmem
            subst hmem
            exact ⟨rfl, rfl, List.mem_cons.mpr (Or.inl rfl), hs, hle⟩
          · rw [if_neg hle] at hmem
            exact absurd hmem (by simp)
        · obtain ⟨h1, h2, h3, h4, h5⟩ := ih hr al hmem
          exact ⟨h1, h2, List.mem_cons_of_mem _ h3, h4, h5⟩

theorem rentDueGo_mem {g o a : String} {today : Date} {pd : Int} {ms : List Nat}
    {acc l : List Alert} (h : rentDueGo g o a today pd ms acc = .ok l)
    (hacc : ∀ al ∈ acc, al.type = ("rent_due") ∧ al.lead_days = 7 ∧
      subDays al.reference_date al.lead_days = some al.trigger_date ∧
      Date.Le today al.trigger_date) :
    ∀ al ∈ l, al.type = ("rent_due") ∧ al.lead_days = 7 ∧
      subDays al.reference_date al.lead_days = some al.trigger_date ∧
      Date.Le today al.trigger_date := by
  induction ms generalizing acc l with
  | nil =>
    unfold rentDueGo at h
    injection h with h
    subst h
    exact hacc
  | cons m rest ih =>
    unfold rentDueGo at h
    split at h
    · injection h with h
      subst h
      exact hacc
    · injection h with h
      subst h
      exact hacc
    · exact Except.noConfusion h
    · rename_i due
      split at h
      · exact Except.noConfusion h
      · rename_i trig hs
        refine ih h ?_
        intro al hal
        rcases List.mem_append.mp hal with hmem | hmem
        · exact hacc al hmem
        · by_cases hle : Date.Le today trig
          · rw [if_pos hle] at hmem
            simp only [List.mem_singleton] at hmem
            subst hmem
            exact ⟨rfl, rfl, hs, hle⟩
          · rw [if_neg hle] at hmem
            exact absurd hmem (by simp)

theorem leaseExpiryAlerts_mem {g o a : String} {expiry : Option Date} {today : Date}
    {l : List Alert} (h : leaseExpiryAlerts g o a expiry today = .ok l) :
    ∀ al ∈ l, al.type = ("lease_expiry") ∧ (∃ e, expiry = some e ∧ al.reference_date = e) ∧
      subDays al.reference_date al.lead_days = some al.trigger_date ∧
      Date.Le today al.trigger_date := by
  unfold leaseExpiryAlerts at h
  cases expiry with
  | none =>
    injection h with h
    subst h
    intro al hal
    exact absurd hal (by simp)
  | some e =>
    intro al hal
    obtain ⟨h1, h2, _, h4, h5⟩ := leaseExpiryGo_mem h al hal
    exact ⟨h1, ⟨e, rfl, h2⟩, h2 ▸ h4, h5⟩

theorem lockInAlerts_mem {g o a : String} {lm : Option PyFloat} {lc : Option Date}
    {today : Date} {l : List Alert} (h : lockInAlerts g o a lm lc today = .ok l) :
    ∀ al ∈ l, al.type = ("lock_in_expiry") ∧
      subDays al.reference_date al.lead_days = some al.trigger_date ∧
      Date.Le today al.trigger_date := by
  unfold lockInAlerts at h
  split at h
  · split at h
    · split at h
      · injection h with h
        subst h
        intro al hal
        exact absurd hal (by simp)
      · injection h with h
        subst h
        intro al hal
        exact absurd hal (by simp)
      · exact Except.noConfusion h
      · rename_i lockEnd
        intro al hal
        obtain ⟨h1, h2, _, h4, h5⟩ := lockInGo_mem h al hal
        exact ⟨h1, h2 ▸ h4, h5⟩
    · injection h with h
      subst h
      intro al hal
      exact absurd hal (by simp)
  · injection h with h
    subst h
    intro al hal
    exact absurd hal (by simp)

theorem escalationAlerts_mem {g o a : String} {ep ef : Option PyFloat}
    {rc lc : Option Date} {today : Date} {l : List Alert}
    (h : escalationAlerts g o a ep ef rc lc today = .ok l) :
    ∀ al ∈ l, al.type = ("escalation") ∧
      subDays al.reference_date al.lead_days = some al.trigger_date ∧
      Date.Le today al.trigger_date := by
  unfold escalationAlerts at h
  split at h
  · split at h
    · split at h
      · injection h with h
        subst h
        intro al hal
        exact absurd hal (by simp)
      · injection h with h
        subst h
        intro al hal
        exact absurd hal (by simp)
      · exact Except.noConfusion h
      · rename_i escD
        intro al hal
        obtain ⟨h1, h2, _, h4, h5⟩ := escGo_mem h al hal
        exact ⟨h1, h2 ▸ h4, h5⟩
    · injection h with h
      subst h
      intro al hal
      exact absurd hal (by simp)
  · injection h with h
    subst h
    intro al hal
    exact absurd hal (by simp)

theorem rentDueAlerts_mem {g o a : String} {start : Option Date} {today : Date}
    {pd : Int} {l : List Alert} (h : rentDueAlerts g o a start today pd = .ok l) :
    ∀ al ∈ l, al.type = ("rent_due") ∧
      subDays al.reference_date al.lead_days = some al.trigger_date ∧
      Date.Le today al.trigger_date := by
  unfold rentDueAlerts at h
  cases start with
  | none =>
    injection h with h
    subst h
    intro al hal
    exact absurd hal (by simp)
  | some s =>
    intro al hal
    obtain ⟨h1, _, h3, h4⟩ := rentDueGo_mem h (by intro al hal; exact absurd hal (by simp)) al hal
    exact ⟨h1, h3, h4⟩

/-- Destructuring of a successful `generate_alerts` run into its four
categories. -/
theorem genAlerts_ok_elim {ex : JVal} {a o g : String} {today : Date} {l : List Alert}
    (h : genAlerts ex a o g today = .ok l) :
    ∃ a1 a2 a3 pd a4,
      leaseExpiryAlerts g o a
        (get_date ((getSection ex ("lease_term")).lookup ("lease_expiry_date"))) today = .ok a1 ∧
      lockInAlerts g o a
        (get_num ((getSection ex ("lease_term")).lookup ("lock_in_months")))
        (get_date ((getSection ex ("lease_term")).lookup ("lease_commencement_date"))) today = .ok a2 ∧
      escalationAlerts g o a
        (get_num ((getSection ex ("rent")).lookup ("escalation_percentage")))
        (get_num ((getSection ex ("rent")).lookup ("escalation_frequency_years")))
        (get_date ((getSection ex ("lease_term")).lookup ("rent_commencement_date")))
        (get_date ((getSection ex ("lease_term")).lookup ("lease_commencement_date"))) today = .ok a3 ∧
      (pyOrLit (get_num ((getSection ex ("rent")).lookup ("mglr_payment_day"))) 7).toPyInt = .ok pd ∧
      rentDueAlerts g o a
        ((get_date ((getSection ex ("lease_term")).lookup ("rent_commencement_date"))).or
          (get_date ((getSection ex ("lease_term")).lookup ("lease_commencement_date")))) today pd = .ok a4 ∧
      l = a1 ++ a2 ++ a3 ++ a4 := by
  simp only [genAlerts] at h
  cases h1 : leaseExpiryAlerts g o a
      (get_date ((getSection ex ("lease_term")).lookup ("lease_expiry_date"))) today with
  | error e =>
    rw [h1, exBind_error] at h
    exact Except.noConfusion h
  | ok a1 =>
    rw [h1, exBind_ok] at h
    cases h2 : lockInAlerts g o a
        (get_num ((getSection ex ("lease_term")).lookup ("lock_in_months")))
        (get_date ((getSection ex ("lease_term")).lookup ("lease_commencement_date"))) today with
    | error e =>
      rw [h2, exBind_error] at h
      exact Except.noConfusion h
    | ok a2 =>
      rw [h2, exBind_ok] at h
      cases h3 : escalationAlerts g o a
          (get_num ((getSection ex ("rent")).lookup ("escalation_percentage")))
          (get_num ((getSection ex ("rent")).lookup ("escalation_frequency_years")))
          (get_date ((getSection ex ("lease_term")).lookup ("rent_commencement_date")))
          (get_date ((getSection ex ("lease_term")).lookup ("lease_commencement_date"))) today with
      | error e =>
        rw [h3, exBind_error] at h
        exact Except.noConfusion h
      | ok a3 =>
        rw [h3, exBind_ok] at h
        cases h4 : (pyOrLit (get_num ((getSection ex ("rent")).lookup ("mglr_payment_day"))) 7).toPyInt with
        | error e =>
          rw [h4, exBind_error] at h
          exact Except.noConfusion h
        | ok pd =>
          rw [h4, exBind_ok] at h
          cases h5 : rentDueAlerts g o a
              ((get_date ((getSection ex ("lease_term")).lookup ("rent_commencement_date"))).or
                (get_date ((getSection ex ("lease_term")).lookup ("lease_commencement_date")))) today pd with
          | error e =>
            rw [h5, exBind_error] at h
            exact Except.noConfusion h
          | ok a4 =>
            rw [h5, exBind_ok, exPure] at h
            injection h with h
            exact ⟨a1, a2, a3, pd, a4, rfl, rfl, rfl, rfl, h5, h.symm⟩

/-- Claim C4: every alert produced by `generate_alerts` has
trigger_date = reference_date − lead_days and trigger_date on or after
today; lease-expiry alerts over the one expiry date are strictly
ordered by decreasing lead (the 180-day trigger earliest) and all their
trigger dates are on or before the reference date. -/
theorem C4_alert_invariants :
    ∀ ex a o g today l, genAlerts ex a o g today = .ok l →
      (∀ al ∈ l, subDays al.reference_date al.lead_days = some al.trigger_date ∧
        Date.Le today al.trigger_date) ∧
      (∀ al ∈ l, al.type = ("lease_expiry") → Date.Le al.trigger_date al.reference_date) ∧
      (∀ al ∈ l, ∀ bl ∈ l, al.type = ("lease_expiry") → bl.type = ("lease_expiry") →
        bl.lead_days < al.lead_days → Date.Lt al.trigger_date bl.trigger_date) := by
  intro ex a o g today l h
  obtain ⟨a1, a2, a3, pd, a4, h1, h2, h3, h4, h5, hl⟩ := genAlerts_ok_elim h
  subst hl
  have hsplit : ∀ al ∈ a1 ++ a2 ++ a3 ++ a4,
      al ∈ a1 ∨ al ∈ a2 ∨ al ∈ a3 ∨ al ∈ a4 := by
    intro al hal
    rcases List.mem_append.mp hal with hx | hx
    · rcases List.mem_append.mp hx with hy | hy
      · rcases List.mem_append.mp hy with hz | hz
        · exact Or.inl hz
        · exact Or.inr (Or.inl hz)
      · exact Or.inr (Or.inr (Or.inl hy))
    · exact Or.inr (Or.inr (Or.inr hx))
  have hlease : ∀ al ∈ a1 ++ a2 ++ a3 ++ a4, al.type = ("lease_expiry") → al ∈ a1 := by
    intro al hal htype
    rcases hsplit al hal with hx | hx | hx | hx
    · exact hx
    · rw [(lockInAlerts_mem h2 al hx).1] at htype
      exact absurd htype (by decide)
    · rw [(escalationAlerts_mem h3 al hx).1] at htype
      exact absurd htype (by decide)
    · rw [(rentDueAlerts_mem h5 al hx).1] at htype
      exact absurd htype (by decide)
  refine ⟨?_, ?_, ?_⟩
  · intro al hal
    rcases hsplit al hal with hx | hx | hx | hx
    · obtain ⟨_, _, hs, hle⟩ := leaseExpiryAlerts_mem h1 al hx
      exact ⟨hs, hle⟩
    · obtain ⟨_, hs, hle⟩ := lockInAlerts_mem h2 al hx
      exact ⟨hs, hle⟩
    · obtain ⟨_, hs, hle⟩ := escalationAlerts_mem h3 al hx
      exact ⟨hs, hle⟩
    · obtain ⟨_, hs, hle⟩ := rentDueAlerts_mem h5 al hx
      exact ⟨hs, hle⟩
  · intro al hal htype
    obtain ⟨_, _, hs, _⟩ := leaseExpiryAlerts_mem h1 al (hlease al hal htype)
    exact subDays_le hs
  · intro al hal bl hbl hta htb hlt
    obtain ⟨_, ⟨e1, he1, hr1⟩, hs1, _⟩ := leaseExpiryAlerts_mem h1 al (hlease al hal hta)
    obtain ⟨_, ⟨e2, he2, hr2⟩, hs2, _⟩ := leaseExpiryAlerts_mem h1 bl (hlease bl hbl htb)
    rw [he1] at he2
    injection he2 with he2
    rw [hr1] at hs1
    rw [hr2, ← he2] at hs2
    exact subDays_lt_subDays hlt hs1 hs2

/-- A lease expiring 2030-01-31, viewed from 2029-05-01: all four
staged lease-expiry alerts are generated. -/
def exC4 : JVal :=
  .obj [(("lease_term"), .obj [(("lease_expiry_date"), .str ("2030-01-31"))])]

def c4Alert (lead : Nat) (sev title msg : String) (trig : Date) : Alert :=
  { org_id := ("org"), outlet_id := ("out"), agreement_id := ("agr"),
    type := ("lease_expiry"), severity := sev, title := title, message := msg,
    trigger_date := trig, lead_days := lead,
    reference_date := ⟨2030, 1, 31⟩, status := ("pending") }

def c4Alerts : List Alert :=
  [ c4Alert 180 ("medium") ("Lease expiry in 180 days")
      ("Lease expires on 2030-01-31. 180 days remaining.") ⟨2029, 8, 4⟩
  , c4Alert 90 ("medium") ("Lease expiry in 90 days")
      ("Lease expires on 2030-01-31. 90 days remaining.") ⟨2029, 11, 2⟩
  , c4Alert 30 ("high") ("Lease expiry in 30 days")
      ("Lease expires on 2030-01-31. 30 days remaining.") ⟨2030, 1, 1⟩
  , c4Alert 7 ("high") ("Lease expiry in 7 days")
      ("Lease expires on 2030-01-31. 7 days remaining.") ⟨2030, 1, 24⟩ ]

/-- Witness for C4: the invariants hold of the concrete alert set a
lease expiring 2030-01-31 produces on 2029-05-01. -/
theorem C4_witness :
    (∀ al ∈ c4Alerts, subDays al.reference_date al.lead_days = some al.trigger_date ∧
      Date.Le ⟨2029, 5, 1⟩ al.trigger_date) ∧
    (∀ al ∈ c4Alerts, al.type = ("lease_expiry") →
      Date.Le al.trigger_date al.reference_date) ∧
    (∀ al ∈ c4Alerts, ∀ bl ∈ c4Alerts, al.type = ("lease_expiry") →
      bl.type = ("lease_expiry") → bl.lead_days < al.lead_days →
      Date.Lt al.trigger_date bl.trigger_date) :=
  C4_alert_invariants exC4 ("agr") ("out") ("org") ⟨2029, 5, 1⟩ c4Alerts (by decide)

/-! ### Claim C5 -/

/-- `n` successive additions of `relativedelta(years=k)` to `base`. -/
def iterYears (base : Date) (k : Int) : Nat → Option Date
  | 0 => some base
  | n + 1 => (iterYears base k n).bind (fun e => addYears e k)

theorem iterYears_shift (e : Date) (k : Int) (n : Nat) :
    iterYears e k (n + 1) = (addYears e k).bind (fun e2 => iterYears e2 k n) := by
  induction n with
  | zero =>
    show (iterYears e k 0).bind (fun x => addYears x k) = _
    cases ha : addYears e k <;> simp [iterYears, ha]
  | succ m ihm =>
    rw [show iterYears e k (m + 1 + 1) =
        (iterYears e k (m + 1)).bind (fun x => addYears x k) from rfl, ihm,
      Option.bind_assoc]
    rfl

theorem addYears_lt {e e2 : Date} {k : Int} (hk : 1 ≤ k) (h : addYears e k = some e2) :
    Date.Lt e e2 := by
  simp only [addYears] at h
  split_ifs at h with hr
  injection h with h
  subst h
  exact Or.inl (show e.year < ((e.year : Int) + k).toNat by omega)

theorem iterYears_lt {base : Date} {k : Int} (hk : 1 ≤ k) :
    ∀ {n : Nat} {r : Date}, 1 ≤ n → iterYears base k n = some r → Date.Lt base r := by
  intro n
  induction n with
  | zero => omega
  | succ m ih =>
    intro r _ h
    rw [show iterYears base k (m + 1) = (iterYears base k m).bind (fun e => addYears e k)
      from rfl] at h
    cases him : iterYears base k m with
    | none =>
      rw [him] at h
      exact Option.noConfusion h
    | some rm =>
      rw [him] at h
      rcases Nat.eq_zero_or_pos m with hm | hm
      · subst hm
        rw [show iterYears base k 0 = some base from rfl] at him
        injection him with him
        subst him
        exact addYears_lt hk h
      · exact dateLt_trans (ih hm him) (addYears_lt hk h)

/-- What a successful escalation `while`-loop run computes: the first
value of the iteration that is on or after today. -/
theorem escLoop_spec {today : Date} {k : Int} :
    ∀ {fuel : Nat} {e r : Date}, escLoop fuel today k e = .ok r →
      ¬ Date.Lt r today ∧
      ∃ n, iterYears e k n = some r ∧
        ∀ j < n, ∃ ej, iterYears e k j = some ej ∧ Date.Lt ej today := by
  intro fuel
  induction fuel with
  | zero => intro e r h; exact Except.noConfusion h
  | succ f ih =>
    intro e r h
    unfold escLoop at h
    by_cases hlt : Date.Lt e today
    · rw [if_pos hlt] at h
      cases ha : addYears e k with
      | none =>
        rw [ha] at h
        exact Except.noConfusion h
      | some e2 =>
        rw [ha] at h
        obtain ⟨h1, n, h2, h3⟩ := ih h
        refine ⟨h1, n + 1, ?_, ?_⟩
        · rw [iterYears_shift, ha]
          exact h2
        · intro j hj
          cases j with
          | zero => exact ⟨e, rfl, hlt⟩
          | succ j2 =>
            obtain ⟨ej, hej, hejlt⟩ := h3 j2 (by omega)
            refine ⟨ej, ?_, hejlt⟩
            rw [iterYears_shift, ha]
            exact hej
    · rw [if_neg hlt] at h
      injection h with h
      subst h
      exact ⟨hlt, 0, rfl, by omega⟩

/-- The extraction of the spec's escalation test case. -/
def exC5 : JVal :=
  .obj [(("lease_term"), .obj [(("rent_commencement_date"), .str ("2024-01-15"))]),
        (("rent"), .obj [(("escalation_percentage"), .num 5),
                         (("escalation_frequency_years"), .num 3)])]

/-- Claim C5: the escalation reference date is obtained by adding the
(integer) escalation frequency to the base date repeatedly until the
result is on or after today — so it is on or after today, strictly
after the base date (never the base itself), reached after at least one
addition, and every earlier iterate lies before today; concretely, with
base 2024-01-15, frequency 3 and today 2027-06-01 the computed next
escalation date is 2030-01-15, and the generated escalation alerts all
carry that reference date. -/
theorem C5_escalation_next_date :
    (∀ (f : PyFloat) (base today escD : Date) (k : Int),
      f.toPyInt = .ok k → 1 ≤ k →
      escCompute f base today = .ok escD →
      ¬ Date.Lt escD today ∧ Date.Lt base escD ∧
      ∃ n, 1 ≤ n ∧ iterYears base k n = some escD ∧
        ∀ j, 1 ≤ j → j < n → ∃ ej, iterYears base k j = some ej ∧ Date.Lt ej today) ∧
    escCompute (.finite 3) ⟨2024, 1, 15⟩ ⟨2027, 6, 1⟩ = .ok ⟨2030, 1, 15⟩ ∧
    (genAlerts exC5 ("agr") ("out") ("org") ⟨2027, 6, 1⟩).toOption.map
      (fun l => (l.filter (fun al => al.type == ("escalation"))).map
        (fun al => al.reference_date)) =
      some [⟨2030, 1, 15⟩, ⟨2030, 1, 15⟩, ⟨2030, 1, 15⟩] := by
  refine ⟨?_, by decide, by decide⟩
  intro f base today escD k hk hk1 h
  unfold escCompute at h
  rw [hk, exBind_ok] at h
  cases ha : addYears base k with
  | none =>
    rw [ha] at h
    simp only [liftVE, exBind_error] at h
    exact Except.noConfusion h
  | some e0 =>
    rw [ha] at h
    simp only [liftVE, exBind_ok] at h
    obtain ⟨h1, n, h2, h3⟩ := escLoop_spec h
    have hiter : iterYears base k (n + 1) = some escD := by
      rw [iterYears_shift, ha]
      exact h2
    refine ⟨h1, iterYears_lt hk1 (by omega) hiter, n + 1, by omega, hiter, ?_⟩
    intro j hj1 hjn
    obtain ⟨ej, hej, hejlt⟩ := h3 (j - 1) (by omega)
    refine ⟨ej, ?_, hejlt⟩
    rw [show j = (j - 1) + 1 by omega, iterYears_shift, ha]
    exact hej

/-- Witness for C5: the loop characterization instantiated at the
spec's concrete escalation test case. -/
theorem C5_witness :
    ¬ Date.Lt ⟨2030, 1, 15⟩ ⟨2027, 6, 1⟩ ∧ Date.Lt ⟨2024, 1, 15⟩ ⟨2030, 1, 15⟩ ∧
    ∃ n, 1 ≤ n ∧ iterYears ⟨2024, 1, 15⟩ 3 n = some ⟨2030, 1, 15⟩ ∧
      ∀ j, 1 ≤ j → j < n → ∃ ej, iterYears ⟨2024, 1, 15⟩ 3 j = some ej ∧
        Date.Lt ej ⟨2027, 6, 1⟩ :=
  C5_escalation_next_date.1 (.finite 3) ⟨2024, 1, 15⟩ ⟨2027, 6, 1⟩ ⟨2030, 1, 15⟩ 3
    (by decide) (by decide) C5_escalation_next_date.2.1

/-! ### Claim C2 -/

theorem bool_eq_false {b : Bool} (h : ¬(b = true)) : b = false := by
  cases b
  · rfl
  · exact absurd rfl h

/-- Case analysis of one generator step. -/
theorem payStep_elim {o : OblRecord} {dd : Int} {today : Date} {i : Nat}
    {ps psF : List PayRecord} {c : Nat}
    (h : payStep o dd today i ps = .ok (psF, c)) :
    ∃ t, addMonths today (i : Int) = some t ∧
      ((windowSkip o t.year t.month = true ∧ psF = ps ∧ c = 0) ∨
       (windowSkip o t.year t.month = false ∧
        existsRec ps o.id t.year t.month = true ∧ psF = ps ∧ c = 0) ∨
       (windowSkip o t.year t.month = false ∧
        existsRec ps o.id t.year t.month = false ∧
        ∃ due t7, mkDateE t.year t.month (min dd 28) = .ok due ∧
          addDays today 7 = some t7 ∧
          psF = ps ++ [payRecOf o t due (payStatusOf due today t7)] ∧ c = 1)) := by
  unfold payStep at h
  cases ht : addMonths today (i : Int) with
  | none =>
    rw [ht] at h
    simp only [liftVE, exBind_error] at h
    exact Except.noConfusion h
  | some t =>
    rw [ht] at h
    simp only [liftVE, exBind_ok] at h
    by_cases hw : windowSkip o t.year t.month = true
    · rw [if_pos hw] at h
      injection h with h
      injection h with h1 h2
      exact ⟨t, rfl, Or.inl ⟨hw, h1.symm, h2.symm⟩⟩
    · rw [if_neg hw] at h
      by_cases he : existsRec ps o.id t.year t.month = true
      · rw [if_pos he] at h
        injection h with h
        injection h with h1 h2
        exact ⟨t, rfl, Or.inr (Or.inl ⟨bool_eq_false hw, he, h1.symm, h2.symm⟩)⟩
      · rw [if_neg he] at h
        cases hd : mkDateE t.year t.month (min dd 28) with
        | error e =>
          rw [hd, exBind_error] at h
          exact Except.noConfusion h
        | ok due =>
          rw [hd, exBind_ok] at h
          cases h7 : addDays today 7 with
          | none =>
            rw [h7] at h
            simp only [liftOF, exBind_error] at h
            exact Except.noConfusion h
          | some t7 =>
            rw [h7] at h
            simp only [liftOF, exBind_ok, exPure] at h
            injection h with h
            injection h with h1 h2
            exact ⟨t, rfl, Or.inr (Or.inr ⟨bool_eq_false hw,
              bool_eq_false he, due, t7, hd, rfl, h1.symm, h2.symm⟩)⟩

theorem payStep_append {o : OblRecord} {dd : Int} {today : Date} {i : Nat}
    {ps psF : List PayRecord} {c : Nat}
    (h : payStep o dd today i ps = .ok (psF, c)) :
    ∃ new, psF = ps ++ new := by
  obtain ⟨t, _, hb | hb | hb⟩ := payStep_elim h
  · exact ⟨[], by rw [hb.2.1, List.append_nil]⟩
  · exact ⟨[], by rw [hb.2.2.1, List.append_nil]⟩
  · obtain ⟨_, _, due, t7, _, _, hps, _⟩ := hb
    exact ⟨_, hps⟩

theorem payMonths_append {o : OblRecord} {dd : Int} {today : Date} :
    ∀ {ms : List Nat} {ps psF : List PayRecord} {c cF : Nat},
      payMonths o dd today ms ps c = .ok (psF, cF) → ∃ new, psF = ps ++ new := by
  intro ms
  induction ms with
  | nil =>
    intro ps psF c cF h
    unfold payMonths at h
    injection h with h
    injection h with h1 _
    exact ⟨[], by rw [h1, List.append_nil]⟩
  | cons i rest ih =>
    intro ps psF c cF h
    unfold payMonths at h
    cases hs : payStep o dd today i ps with
    | error e =>
      rw [hs, exBind_error] at h
      exact Except.noConfusion h
    | ok r =>
      rw [hs, exBind_ok] at h
      obtain ⟨new1, hnew1⟩ := payStep_append hs
      obtain ⟨new2, hnew2⟩ := ih h
      exact ⟨new1 ++ new2, by rw [hnew2, hnew1, List.append_assoc]⟩

theorem payObls_append {today : Date} {n : Nat} :
    ∀ {obls : List OblRecord} {ps psF : List PayRecord} {c cF : Nat},
      payObls today n obls ps c = .ok (psF, cF) → ∃ new, psF = ps ++ new := by
  intro obls
  induction obls with
  | nil =>
    intro ps psF c cF h
    unfold payObls at h
    injection h with h
    injection h with h1 _
    exact ⟨[], by rw [h1, List.append_nil]⟩
  | cons o rest ih =>
    intro ps psF c cF h
    unfold payObls at h
    cases hs : payMonths o (pyOrInt o.due_day_of_month 1) today (List.range n) ps c with
    | error e =>
      rw [hs, exBind_error] at h
      exact Except.noConfusion h
    | ok r =>
      rw [hs, exBind_ok] at h
      obtain ⟨new1, hnew1⟩ := payMonths_append hs
      obtain ⟨new2, hnew2⟩ := ih h
      exact ⟨new1 ++ new2, by rw [hnew2, hnew1, List.append_assoc]⟩

theorem existsRec_mono {ps ps2 : List PayRecord} {oid : String} {y m : Nat}
    (h : existsRec ps oid y m = true) (hsub : ∀ p ∈ ps, p ∈ ps2) :
    existsRec ps2 oid y m = true := by
  unfold existsRec at *
  obtain ⟨p, hp, hpred⟩ := List.any_eq_true.mp h
  exact List.any_eq_true.mpr ⟨p, hsub p hp, hpred⟩

/-- Re-running the month loop on a table that already contains
everything the first run produced is a counted no-op. -/
theorem payMonths_idem {o : OblRecord} {dd : Int} {today : Date} :
    ∀ {ms : List Nat} {ps psF : List PayRecord} {c cF : Nat},
      payMonths o dd today ms ps c = .ok (psF, cF) →
      ∀ {ps2 : List PayRecord} {c2 : Nat}, (∀ p ∈ psF, p ∈ ps2) →
        payMonths o dd today ms ps2 c2 = .ok (ps2, c2) := by
  intro ms
  induction ms with
  | nil =>
    intro ps psF c cF h ps2 c2 hsub
    rfl
  | cons i rest ih =>
    intro ps psF c cF h ps2 c2 hsub
    unfold payMonths at h
    cases hs : payStep o dd today i ps with
    | error e =>
      rw [hs, exBind_error] at h
      exact Except.noConfusion h
    | ok r =>
      rw [hs, exBind_ok] at h
      obtain ⟨ps1, k⟩ := r
      obtain ⟨newR, hnewR⟩ := payMonths_append h
      have hps1sub : ∀ p ∈ ps1, p ∈ ps2 := by
        intro p hp
        exact hsub p (by rw [hnewR]; exact List.mem_append_left _ hp)
      obtain ⟨t, ht, hb | hb | hb⟩ := payStep_elim hs
      · have hno : payStep o dd today i ps2 = .ok (ps2, 0) := by
          unfold payStep
          rw [ht]
          simp only [liftVE, exBind_ok]
          rw [if_pos hb.1]
          rfl
        unfold payMonths
        rw [hno, exBind_ok]
        show payMonths o dd today rest ps2 (c2 + 0) = Except.ok (ps2, c2)
        rw [Nat.add_zero]
        exact ih h hsub
      · obtain ⟨hw, he, hps1, _⟩ := hb
        have he2 : existsRec ps2 o.id t.year t.month = true := by
          refine existsRec_mono he ?_
          intro p hp
          exact hps1sub p (by rw [hps1]; exact hp)
        have hno : payStep o dd today i ps2 = .ok (ps2, 0) := by
          unfold payStep
          rw [ht]
          simp only [liftVE, exBind_ok]
          by_cases hw2 : windowSkip o t.year t.month = true
          · rw [if_pos hw2]
            rfl
          · rw [if_neg hw2, if_pos he2]
            rfl
        unfold payMonths
        rw [hno, exBind_ok]
        show payMonths o dd today rest ps2 (c2 + 0) = Except.ok (ps2, c2)
        rw [Nat.add_zero]
        exact ih h hsub
      · obtain ⟨hw, he, due, t7, hd, h7, hps1, _⟩ := hb
        have hrec : payRecOf o t due (payStatusOf due today t7) ∈ ps2 := by
          refine hps1sub _ ?_
          rw [hps1]
          exact List.mem_append_right _ (by simp)
        have he2 : existsRec ps2 o.id t.year t.month = true := by
          unfold existsRec
          refine List.any_eq_true.mpr ⟨_, hrec, ?_⟩
          simp [payRecOf]
        have hno : payStep o dd today i ps2 = .ok (ps2, 0) := by
          unfold payStep
          rw [ht]
          simp only [liftVE, exBind_ok]
          by_cases hw2 : windowSkip o t.year t.month = true
          · rw [if_pos hw2]
            rfl
          · rw [if_neg hw2, if_pos he2]
            rfl
        unfold payMonths
        rw [hno, exBind_ok]
        show payMonths o dd today rest ps2 (c2 + 0) = Except.ok (ps2, c2)
        rw [Nat.add_zero]
        exact ih h hsub

theorem payObls_idem {today : Date} {n : Nat} :
    ∀ {obls : List OblRecord} {ps psF : List PayRecord} {c cF : Nat},
      payObls today n obls ps c = .ok (psF, cF) →
      ∀ {ps2 : List PayRecord} {c2 : Nat}, (∀ p ∈ psF, p ∈ ps2) →
        payObls today n obls ps2 c2 = .ok (ps2, c2) := by
  intro obls
  induction obls with
  | nil =>
    intro ps psF c cF h ps2 c2 hsub
    rfl
  | cons o rest ih =>
    intro ps psF c cF h ps2 c2 hsub
    unfold payObls at h
    cases hs : payMonths o (pyOrInt o.due_day_of_month 1) today (List.range n) ps c with
    | error e =>
      rw [hs, exBind_error] at h
      exact Except.noConfusion h
    | ok r =>
      rw [hs, exBind_ok] at h
      obtain ⟨ps1, c1⟩ := r
      obtain ⟨newR, hnewR⟩ := payObls_append h
      have hps1sub : ∀ p ∈ ps1, p ∈ ps2 := by
        intro p hp
        exact hsub p (by rw [hnewR]; exact List.mem_append_left _ hp)
      have hmo : payMonths o (pyOrInt o.due_day_of_month 1) today (List.range n) ps2 c2 =
          .ok (ps2, c2) := payMonths_idem hs hps1sub
      unfold payObls
      rw [hmo, exBind_ok]
      show payObls today n rest ps2 c2 = Except.ok (ps2, c2)
      exact ih h hsub

/-- Claim C2: the payment period generator is idempotent — a second run
over the same obligations and today, starting from the table the first
run produced, returns that table unchanged and reports zero created
rows. -/
theorem C2_payment_generator_idempotent :
    ∀ (obls : List OblRecord) (ps : List PayRecord) (today : Date) (n : Nat)
      (ps1 : List PayRecord) (c1 : Nat),
      genPayments obls ps today n = .ok (ps1, c1) →
      genPayments obls ps1 today n = .ok (ps1, 0) := by
  intro obls ps today n ps1 c1 h
  exact payObls_idem h (by intro p hp; exact hp)

/-- Witness for C2: a concrete first run creates two periods; the
second run over the resulting table creates none. -/
theorem C2_witness :
    genPayments
      [{ id := ("o1"), org_id := ("g"), outlet_id := ("u"), frequency := ("monthly"),
         is_active := true, amount := some (.finite 100), due_day_of_month := some 10,
         start_date := some ("2025-01-01"), end_date := none }]
      [ payRecOf
          { id := ("o1"), org_id := ("g"), outlet_id := ("u"), frequency := ("monthly"),
            is_active := true, amount := some (.finite 100), due_day_of_month := some 10,
            start_date := some ("2025-01-01"), end_date := none }
          ⟨2025, 3, 10⟩ ⟨2025, 3, 10⟩ ("due"),
        payRecOf
          { id := ("o1"), org_id := ("g"), outlet_id := ("u"), frequency := ("monthly"),
            is_active := true, amount := some (.finite 100), due_day_of_month := some 10,
            start_date := some ("2025-01-01"), end_date := none }
          ⟨2025, 4, 10⟩ ⟨2025, 4, 10⟩ ("upcoming") ]
      ⟨2025, 3, 10⟩ 2 =
    .ok ([ payRecOf
          { id := ("o1"), org_id := ("g"), outlet_id := ("u"), frequency := ("monthly"),
            is_active := true, amount := some (.finite 100), due_day_of_month := some 10,
            start_date := some ("2025-01-01"), end_date := none }
          ⟨2025, 3, 10⟩ ⟨2025, 3, 10⟩ ("due"),
        payRecOf
          { id := ("o1"), org_id := ("g"), outlet_id := ("u"), frequency := ("monthly"),
            is_active := true, amount := some (.finite 100), due_day_of_month := some 10,
            start_date := some ("2025-01-01"), end_date := none }
          ⟨2025, 4, 10⟩ ⟨2025, 4, 10⟩ ("upcoming") ], 0) :=
  C2_payment_generator_idempotent
    [{ id := ("o1"), org_id := ("g"), outlet_id := ("u"), frequency := ("monthly"),
       is_active := true, amount := some (.finite 100), due_day_of_month := some 10,
       start_date := some ("2025-01-01"), end_date := none }]
    [] ⟨2025, 3, 10⟩ 2 _ 2 (by decide)

/-! ### Claim C6 -/

theorem addMonths_spec {d : Date} {k : Int} {t : Date} (h : addMonths d k = some t) :
    12 * (t.year : Int) + (t.month : Int) = 12 * (d.year : Int) + (d.month : Int) + k ∧
    1 ≤ t.month ∧ t.month ≤ 12 ∧ 1 ≤ t.year ∧ t.year ≤ 9999 := by
  simp only [addMonths] at h
  split_ifs at h with hr
  injection h with h
  subst h
  have h1 := Int.ediv_add_emod (12 * (d.year : Int) + ((d.month : Int) - 1) + k) 12
  have h2 : 0 ≤ (12 * (d.year : Int) + ((d.month : Int) - 1) + k) % 12 :=
    Int.emod_nonneg _ (by norm_num)
  have h3 : (12 * (d.year : Int) + ((d.month : Int) - 1) + k) % 12 < 12 :=
    Int.emod_lt_of_pos _ (by norm_num)
  refine ⟨?_, ?_, ?_, ?_, ?_⟩
  · show 12 * ((((12 * (d.year : Int) + ((d.month : Int) - 1) + k) / 12).toNat : Int)) +
        ((((12 * (d.year : Int) + ((d.month : Int) - 1) + k) % 12).toNat + 1 : Nat) : Int) = _
    omega
  · show 1 ≤ ((12 * (d.year : Int) + ((d.month : Int) - 1) + k) % 12).toNat + 1
    omega
  · show ((12 * (d.year : Int) + ((d.month : Int) - 1) + k) % 12).toNat + 1 ≤ 12
    omega
  · show 1 ≤ ((12 * (d.year : Int) + ((d.month : Int) - 1) + k) / 12).toNat
    omega
  · show ((12 * (d.year : Int) + ((d.month : Int) - 1) + k) / 12).toNat ≤ 9999
    omega

theorem addMonths_target_ne {today : Date} {i j : Nat} {ti tj : Date}
    (hi : addMonths today (i : Int) = some ti) (hj : addMonths today (j : Int) = some tj)
    (hij : i ≠ j) : ¬(ti.year = tj.year ∧ ti.month = tj.month) := by
  obtain ⟨e1, _⟩ := addMonths_spec hi
  obtain ⟨e2, _⟩ := addMonths_spec hj
  rintro ⟨hy, hm⟩
  rw [hy, hm] at e1
  omega

theorem existsRec_append {ps qs : List PayRecord} {oid : String} {y m : Nat} :
    existsRec (ps ++ qs) oid y m = (existsRec ps oid y m || existsRec qs oid y m) := by
  unfold existsRec
  exact List.any_append

theorem existsRec_single_ne {p : PayRecord} {oid : String} {y m : Nat}
    (hne : ¬(p.period_year = y ∧ p.period_month = m)) :
    existsRec [p] oid y m = false := by
  refine bool_eq_false ?_
  intro hcon
  unfold existsRec at hcon
  simp only [List.any_cons, List.any_nil, Bool.or_false, Bool.and_eq_true,
    beq_iff_eq] at hcon
  exact hne ⟨hcon.1.2, hcon.2⟩

/-- What the claim says one (obligation, offset) step yields: nothing
when the month-granularity window check skips, otherwise the new period
with the clamped due date, classified status and copied amount. -/
def payStepFn (o : OblRecord) (dd : Int) (today : Date) (i : Nat) : Option PayRecord :=
  match addMonths today (i : Int) with
  | none => none
  | some t =>
    if windowSkip o t.year t.month then none
    else
      match mkDateE t.year t.month (min dd 28), addDays today 7 with
      | .ok due, some t7 => some (payRecOf o t due (payStatusOf due today t7))
      | _, _ => none

/-- The month loop over distinct offsets, starting from a table with no
rows for any of the targeted months, appends exactly the rows
`payStepFn` describes. -/
theorem payMonths_char {o : OblRecord} {dd : Int} {today : Date} :
    ∀ (ms : List Nat) (ps : List PayRecord) (c : Nat) {psF : List PayRecord} {cF : Nat},
      payMonths o dd today ms ps c = .ok (psF, cF) →
      ms.Nodup →
      (∀ i ∈ ms, ∀ t, addMonths today (i : Int) = some t →
        existsRec ps o.id t.year t.month = false) →
      psF = ps ++ ms.filterMap (payStepFn o dd today) ∧
      cF = c + (ms.filterMap (payStepFn o dd today)).length := by
  intro ms
  induction ms with
  | nil =>
    intro ps c psF cF h _ _
    unfold payMonths at h
    injection h with h
    injection h with h1 h2
    exact ⟨by rw [← h1, List.filterMap_nil, List.append_nil],
      by rw [← h2, List.filterMap_nil, List.length_nil, Nat.add_zero]⟩
  | cons i rest ih =>
    intro ps c psF cF h hnodup hdisj
    unfold payMonths at h
    cases hs : payStep o dd today i ps with
    | error e =>
      rw [hs, exBind_error] at h
      exact Except.noConfusion h
    | ok r =>
      obtain ⟨ps1, k⟩ := r
      rw [hs, exBind_ok] at h
      change payMonths o dd today rest ps1 (c + k) = Except.ok (psF, cF) at h
      obtain ⟨t, ht, hb | hb | hb⟩ := payStep_elim hs
      · obtain ⟨hw, hps1, hk⟩ := hb
        rw [hps1, hk] at h
        have hfn : payStepFn o dd today i = none := by
          simp [payStepFn, ht, hw]
        obtain ⟨hpsF, hcF⟩ := ih ps (c + 0) h (List.nodup_cons.mp hnodup).2
          (by
            intro j hj tj htj
            exact hdisj j (List.mem_cons_of_mem _ hj) tj htj)
        simp only [List.filterMap_cons, hfn]
        exact ⟨hpsF, by omega⟩
      · obtain ⟨hw, he, hps1, hk⟩ := hb
        have := hdisj i (List.mem_cons_self _ _) t ht
        rw [this] at he
        exact Bool.noConfusion he
      · obtain ⟨hw, he, due, t7, hd, h7, hps1, hk⟩ := hb
        rw [hps1, hk] at h
        have hfn : payStepFn o dd today i =
            some (payRecOf o t due (payStatusOf due today t7)) := by
          simp [payStepFn, ht, hw, hd, h7]
        obtain ⟨hpsF, hcF⟩ := ih (ps ++ [payRecOf o t due (payStatusOf due today t7)])
          (c + 1) h (List.nodup_cons.mp hnodup).2
          (by
            intro j hj tj htj
            rw [existsRec_append, hdisj j (List.mem_cons_of_mem _ hj) tj htj]
            rw [existsRec_single_ne ?_]
            · rfl
            · have hne : i ≠ j := by
                intro hij
                exact (List.nodup_cons.mp hnodup).1 (hij ▸ hj)
              have := addMonths_target_ne ht htj hne
              intro ⟨ha, hb2⟩
              exact this ⟨ha, hb2⟩)
        simp only [List.filterMap_cons, hfn]
        constructor
        · rw [hpsF, List.append_assoc]
          rfl
        · rw [hcF, List.length_cons]
          omega

/-- Claim C6: for an active, non-one-time obligation run against an
empty payment table, the generator creates exactly the periods of the
offsets whose `YYYY-MM` string lies inside the obligation's validity
window (string-prefix comparison), each with due date
`(year, month, min(due_day, 28))`, status overdue / due (within 7 days
inclusive) / upcoming, and the due amount copied from the obligation;
window-skipped offsets produce nothing, and the returned count is the
number of created rows. -/
theorem C6_payment_window_and_fields :
    ∀ (o : OblRecord) (today : Date) (n : Nat) (psF : List PayRecord) (c : Nat),
      o.is_active = true → o.frequency ≠ ("one_time") →
      genPayments [o] [] today n = .ok (psF, c) →
      psF = (List.range n).filterMap (payStepFn o (pyOrInt o.due_day_of_month 1) today) ∧
      c = psF.length := by
  intro o today n psF c hact hfreq h
  unfold genPayments at h
  have hfilter : [o].filter (fun x => x.is_active && x.frequency != ("one_time")) = [o] := by
    have hb : (o.frequency != ("one_time")) = true := bne_iff_ne.mpr hfreq
    simp [List.filter, hact, hb]
  rw [hfilter] at h
  unfold payObls at h
  cases hs : payMonths o (pyOrInt o.due_day_of_month 1) today (List.range n) [] 0 with
  | error e =>
    rw [hs, exBind_error] at h
    exact Except.noConfusion h
  | ok r =>
    obtain ⟨ps1, c1⟩ := r
    rw [hs, exBind_ok] at h
    have h' : (Except.ok (ps1, c1) : Except PyErr (List PayRecord × Nat)) = .ok (psF, c) := h
    injection h' with h'
    injection h' with h1 h2
    obtain ⟨hps, hc⟩ := payMonths_char (List.range n) [] 0 hs (List.nodup_range n)
      (by intro i _ t _; rfl)
    subst h1
    subst h2
    rw [List.nil_append] at hps
    exact ⟨hps, by rw [hc, hps]; omega⟩

/-- Witness for C6: the concrete two-month run of claim C2's witness
obligation matches the characterization. -/
theorem C6_witness :
    [ payRecOf
        { id := ("o1"), org_id := ("g"), outlet_id := ("u"), frequency := ("monthly"),
          is_active := true, amount := some (.finite 100), due_day_of_month := some 10,
          start_date := some ("2025-01-01"), end_date := none }
        ⟨2025, 3, 10⟩ ⟨2025, 3, 10⟩ ("due"),
      payRecOf
        { id := ("o1"), org_id := ("g"), outlet_id := ("u"), frequency := ("monthly"),
          is_active := true, amount := some (.finite 100), due_day_of_month := some 10,
          start_date := some ("2025-01-01"), end_date := none }
        ⟨2025, 4, 10⟩ ⟨2025, 4, 10⟩ ("upcoming") ] =
      (List.range 2).filterMap (payStepFn
        { id := ("o1"), org_id := ("g"), outlet_id := ("u"), frequency := ("monthly"),
          is_active := true, amount := some (.finite 100), due_day_of_month := some 10,
          start_date := some ("2025-01-01"), end_date := none }
        (pyOrInt (some 10) 1) ⟨2025, 3, 10⟩) ∧
    2 = 2 :=
  ⟨(C6_payment_window_and_fields
      { id := ("o1"), org_id := ("g"), outlet_id := ("u"), frequency := ("monthly"),
        is_active := true, amount := some (.finite 100), due_day_of_month := some 10,
        start_date := some ("2025-01-01"), end_date := none }
      ⟨2025, 3, 10⟩ 2 _ 2 rfl (by decide) (by decide)).1, rfl⟩

/-! ### Claim C10 -/

theorem payStep_created {o : OblRecord} {dd : Int} {today : Date} {i : Nat}
    {ps psF : List PayRecord} {c : Nat} (h : payStep o dd today i ps = .ok (psF, c))
    {p : PayRecord} (hp : p ∈ psF) (hnp : p ∉ ps) :
    p.obligation_id = o.id ∧
    ∃ (t due : Date), mkDateE t.year t.month (min dd 28) = .ok due ∧
      p.period_year = t.year ∧ p.period_month = t.month ∧ p.due_date = due := by
  obtain ⟨t, ht, hb | hb | hb⟩ := payStep_elim h
  · rw [hb.2.1] at hp
    exact absurd hp hnp
  · rw [hb.2.2.1] at hp
    exact absurd hp hnp
  · obtain ⟨_, _, due, t7, hd, h7, hps, _⟩ := hb
    rw [hps] at hp
    rcases List.mem_append.mp hp with hm | hm
    · exact absurd hm hnp
    · simp only [List.mem_singleton] at hm
      subst hm
      exact ⟨rfl, t, due, hd, rfl, rfl, rfl⟩

theorem payMonths_created {o : OblRecord} {dd : Int} {today : Date} :
    ∀ {ms : List Nat} {ps psF : List PayRecord} {c cF : Nat},
      payMonths o dd today ms ps c = .ok (psF, cF) →
      ∀ p ∈ psF, p ∉ ps →
      p.obligation_id = o.id ∧
      ∃ (t due : Date), mkDateE t.year t.month (min dd 28) = .ok due ∧
        p.period_year = t.year ∧ p.period_month = t.month ∧ p.due_date = due := by
  intro ms
  induction ms with
  | nil =>
    intro ps psF c cF h p hp hnp
    unfold payMonths at h
    injection h with h
    injection h with h1 _
    rw [← h1] at hp
    exact absurd hp hnp
  | cons i rest ih =>
    intro ps psF c cF h p hp hnp
    unfold payMonths at h
    cases hs : payStep o dd today i ps with
    | error e =>
      rw [hs, exBind_error] at h
      exact Except.noConfusion h
    | ok r =>
      obtain ⟨ps1, k⟩ := r
      rw [hs, exBind_ok] at h
      change payMonths o dd today rest ps1 (c + k) = Except.ok (psF, cF) at h
      by_cases hp1 : p ∈ ps1
      · exact payStep_created hs hp1 hnp
      · exact ih h p hp hp1

theorem payObls_created {today : Date} {n : Nat} :
    ∀ {obls : List OblRecord} {ps psF : List PayRecord} {c cF : Nat},
      payObls today n obls ps c = .ok (psF, cF) →
      ∀ p ∈ psF, p ∉ ps →
      ∃ o ∈ obls, p.obligation_id = o.id ∧
        ∃ (t due : Date), mkDateE t.year t.month (min (pyOrInt o.due_day_of_month 1) 28) = .ok due ∧
          p.period_year = t.year ∧ p.period_month = t.month ∧ p.due_date = due := by
  intro obls
  induction obls with
  | nil =>
    intro ps psF c cF h p hp hnp
    unfold payObls at h
    injection h with h
    injection h with h1 _
    rw [← h1] at hp
    exact absurd hp hnp
  | cons o rest ih =>
    intro ps psF c cF h p hp hnp
    unfold payObls at h
    cases hs : payMonths o (pyOrInt o.due_day_of_month 1) today (List.range n) ps c with
    | error e =>
      rw [hs, exBind_error] at h
      exact Except.noConfusion h
    | ok r =>
      obtain ⟨ps1, c1⟩ := r
      rw [hs, exBind_ok] at h
      change payObls today n rest ps1 c1 = Except.ok (psF, cF) at h
      by_cases hp1 : p ∈ ps1
      · obtain ⟨hid2, hrest2⟩ := payMonths_created hs p hp1 hnp
        exact ⟨o, List.mem_cons_self _ _, hid2, hrest2⟩
      · obtain ⟨o2, ho2, hrest⟩ := ih h p hp hp1
        exact ⟨o2, List.mem_cons_of_mem _ ho2, hrest⟩

/-- Claim C10: when an obligation record has no `due_day_of_month`
(absent, null or 0), every period the generator creates for it carries
due day 1 — `(obl.get("due_day_of_month") or 1)`, not the deriver's
creation-time default of 7. -/
theorem C10_missing_due_day_defaults_to_one :
    ∀ (obls : List OblRecord) (ps : List PayRecord) (today : Date) (n : Nat)
      (psF : List PayRecord) (c : Nat),
      genPayments obls ps today n = .ok (psF, c) →
      (obls.map (fun o => o.id)).Nodup →
      ∀ p ∈ psF, p ∉ ps →
      ∀ o ∈ obls, o.id = p.obligation_id →
      (o.due_day_of_month = none ∨ o.due_day_of_month = some 0) →
      p.due_date = ⟨p.period_year, p.period_month, 1⟩ := by
  intro obls ps today n psF c h hnodup p hp hnp o ho hid hdd
  unfold genPayments at h
  obtain ⟨o2, ho2, hido2, t, due, hd, hpy, hpm, hdue⟩ := payObls_created h p hp hnp
  have ho2' : o2 ∈ obls := List.mem_of_mem_filter ho2
  have heq : o2 = o :=
    List.inj_on_of_nodup_map hnodup ho2' ho (by rw [← hido2, hid])
  subst heq
  have hdd1 : pyOrInt o2.due_day_of_month 1 = 1 := by
    rcases hdd with hnone | hzero
    · rw [hnone]
      rfl
    · rw [hzero]
      simp [pyOrInt]
  rw [hdd1] at hd
  have hmin : (min (1 : Int) 28) = 1 := by decide
  rw [hmin] at hd
  have hdue1 : due = ⟨t.year, t.month, 1⟩ := by
    unfold mkDateE at hd
    split_ifs at hd with hc
    injection hd with hd
    rw [← hd]
    rfl
  rw [hdue, hdue1, hpy, hpm]

/-- Witness for C10: a concrete obligation with `due_day_of_month = 0`
creates its period with due day 1. -/
theorem C10_witness :
    (payRecOf
      { id := ("o2"), org_id := ("g"), outlet_id := ("u"), frequency := ("monthly"),
        is_active := true, amount := none, due_day_of_month := some 0,
        start_date := none, end_date := none }
      ⟨2025, 3, 10⟩ ⟨2025, 3, 1⟩ ("overdue")).due_date =
    ⟨(payRecOf
      { id := ("o2"), org_id := ("g"), outlet_id := ("u"), frequency := ("monthly"),
        is_active := true, amount := none, due_day_of_month := some 0,
        start_date := none, end_date := none }
      ⟨2025, 3, 10⟩ ⟨2025, 3, 1⟩ ("overdue")).period_year,
     (payRecOf
      { id := ("o2"), org_id := ("g"), outlet_id := ("u"), frequency := ("monthly"),
        is_active := true, amount := none, due_day_of_month := some 0,
        start_date := none, end_date := none }
      ⟨2025, 3, 10⟩ ⟨2025, 3, 1⟩ ("overdue")).period_month, 1⟩ :=
  C10_missing_due_day_defaults_to_one
    [{ id := ("o2"), org_id := ("g"), outlet_id := ("u"), frequency := ("monthly"),
       is_active := true, amount := none, due_day_of_month := some 0,
       start_date := none, end_date := none }]
    [] ⟨2025, 3, 10⟩ 1
    [payRecOf
      { id := ("o2"), org_id := ("g"), outlet_id := ("u"), frequency := ("monthly"),
        is_active := true, amount := none, due_day_of_month := some 0,
        start_date := none, end_date := none }
      ⟨2025, 3, 10⟩ ⟨2025, 3, 1⟩ ("overdue")]
    1 (by decide) (by decide)
    (payRecOf
      { id := ("o2"), org_id := ("g"), outlet_id := ("u"), frequency := ("monthly"),
        is_active := true, amount := none, due_day_of_month := some 0,
        start_date := none, end_date := none }
      ⟨2025, 3, 10⟩ ⟨2025, 3, 1⟩ ("overdue"))
    (List.mem_cons_self _ _) (List.not_mem_nil _)
    { id := ("o2"), org_id := ("g"), outlet_id := ("u"), frequency := ("monthly"),
      is_active := true, amount := none, due_day_of_month := some 0,
      start_date := none, end_date := none }
    (List.mem_cons_self _ _) rfl (Or.inr rfl)

end Grospace
